import Mathlib

/-!
Verification development for the altegio_bot outbound-messaging pipeline.

The Python sources are shallowly embedded as pure Lean functions:

* timestamps (`datetime` values, UTC) are embedded as `Int` seconds since
  the epoch; `timedelta(hours = h)` becomes `h * 3600`, etc.;
* database tables are embedded as Lean lists of row structures, and the
  SQLAlchemy statements as pure list operations;
* fallible Python code (code that can raise) is embedded with
  `Except String`; `None`-able values with `Option`;
* `hashlib.sha256(...).hexdigest()` is embedded by an executable SHA-256
  over UTF-8 byte lists (`Nat` arithmetic, reduced mod 2^32 explicitly).
-/

/-! ## Byte-level helpers and SHA-256 (hashlib.sha256(...).hexdigest()) -/

namespace Sha256

def M32 : Nat := 4294967296

/-- Rotate a 32-bit word right by `n` (0 < n < 32); input assumed < 2^32. -/
def rotr (n x : Nat) : Nat := ((x >>> n) ||| (x <<< (32 - n))) % M32

/-- The 64 SHA-256 round constants. -/
def k64 : List Nat :=
  [1116352408, 1899447441, 3049323471, 3921009573,
   961987163, 1508970993, 2453635748, 2870763221,
   3624381080, 310598401, 607225278, 1426881987,
   1925078388, 2162078206, 2614888103, 3248222580,
   3835390401, 4022224774, 264347078, 604807628,
   770255983, 1249150122, 1555081692, 1996064986,
   2554220882, 2821834349, 2952996808, 3210313671,
   3336571891, 3584528711, 113926993, 338241895,
   666307205, 773529912, 1294757372, 1396182291,
   1695183700, 1986661051, 2177026350, 2456956037,
   2730485921, 2820302411, 3259730800, 3345764771,
   3516065817, 3600352804, 4094571909, 275423344,
   430227734, 506948616, 659060556, 883997877,
   958139571, 1322822218, 1537002063, 1747873779,
   1955562222, 2024104815, 2227730452, 2361852424,
   2428436474, 2756734187, 3204031479, 3329325298]

/-- Initial hash state. -/
def hInit : List Nat :=
  [1779033703, 3144134277, 1013904242, 2773480762,
   1359893119, 2600822924, 528734635, 1541459225]

/-- Big-endian byte expansion of `v` into `n` bytes. -/
def beBytes (n v : Nat) : List Nat :=
  (List.range n).map (fun i => (v >>> (8 * (n - 1 - i))) % 256)

/-- SHA-256 message padding: 0x80, zeros, 8-byte big-endian bit length. -/
def padBytes (msg : List Nat) : List Nat :=
  let L := msg.length
  let zeros := (120 - ((L + 1) % 64)) % 64
  msg ++ [0x80] ++ List.replicate zeros 0 ++ beBytes 8 (8 * L)

/-- Big-endian 32-bit word from a list of bytes. -/
def word (bs : List Nat) : Nat := bs.foldl (fun a b => a * 256 + b) 0

/-- The 16 initial schedule words of a 64-byte block. -/
def blockWords (blk : List Nat) : List Nat :=
  (List.range 16).map (fun i => word ((blk.drop (4 * i)).take 4))

def smallSigma0 (x : Nat) : Nat := (rotr 7 x) ^^^ (rotr 18 x) ^^^ (x >>> 3)

def smallSigma1 (x : Nat) : Nat := (rotr 17 x) ^^^ (rotr 19 x) ^^^ (x >>> 10)

def bigSigma0 (x : Nat) : Nat := (rotr 2 x) ^^^ (rotr 13 x) ^^^ (rotr 22 x)

def bigSigma1 (x : Nat) : Nat := (rotr 6 x) ^^^ (rotr 11 x) ^^^ (rotr 25 x)

/-- Extend 16 schedule words to 64. -/
def schedule (w16 : List Nat) : List Nat :=
  (List.range 48).foldl
    (fun w _ =>
      let n := w.length
      w ++ [(smallSigma1 (w.getD (n - 2) 0) + w.getD (n - 7) 0 +
             smallSigma0 (w.getD (n - 15) 0) + w.getD (n - 16) 0) % M32])
    w16

/-- One round of the compression function on the 8-word state. -/
def round (w : List Nat) (st : List Nat) (i : Nat) : List Nat :=
  match st with
  | [a, b, c, d, e, f, g, hh] =>
    let ch := (e &&& f) ^^^ ((e ^^^ (M32 - 1)) &&& g)
    let maj := (a &&& b) ^^^ (a &&& c) ^^^ (b &&& c)
    let t1 := (hh + bigSigma1 e + ch + k64.getD i 0 + w.getD i 0) % M32
    let t2 := (bigSigma0 a + maj) % M32
    [(t1 + t2) % M32, a, b, c, (d + t1) % M32, e, f, g]
  | other => other

/-- Compress one 64-byte block into the running state. -/
def compress (hs blk : List Nat) : List Nat :=
  let w := schedule (blockWords blk)
  let fin := (List.range 64).foldl (round w) hs
  List.zipWith (fun x y => (x + y) % M32) hs fin

/-- SHA-256 digest of a byte list, as 32 bytes. -/
def sha256Bytes (msg : List Nat) : List Nat :=
  let padded := padBytes msg
  let blocks := (List.range (padded.length / 64)).map
    (fun i => (padded.drop (64 * i)).take 64)
  ((blocks.foldl compress hInit).map (beBytes 4)).flatten

def hexDigit (n : Nat) : Char :=
  if n < 10 then Char.ofNat (48 + n) else Char.ofNat (87 + n)

def byteHex (b : Nat) : String :=
  String.mk [hexDigit (b / 16), hexDigit (b % 16)]

/-- Lowercase hex of a digest. -/
def bytesHex (bs : List Nat) : String := String.join (bs.map byteHex)

/-- UTF-8 encoding of one character. -/
def charUtf8 (c : Char) : List Nat :=
  let n := c.toNat
  if n < 0x80 then [n]
  else if n < 0x800 then [0xc0 + n / 64, 0x80 + n % 64]
  else if n < 0x10000 then
    [0xe0 + n / 4096, 0x80 + (n / 64) % 64, 0x80 + n % 64]
  else
    [0xf0 + n / 262144, 0x80 + (n / 4096) % 64,
     0x80 + (n / 64) % 64, 0x80 + n % 64]

/-- UTF-8 bytes of a string. -/
def utf8Bytes (s : String) : List Nat := (s.data.map charUtf8).flatten

end Sha256

/-- `hashlib.sha256(s.encode("utf-8")).hexdigest()`. -/
def sha256_hex (s : String) : String :=
  Sha256.bytesHex (Sha256.sha256Bytes (Sha256.utf8Bytes s))

/-! ## Python values (JSON payloads): truthiness, str(), canonical dumps

`json.loads` results are embedded as `PyVal`; dicts as association lists
(first-match lookup).  `json.dumps(..., ensure_ascii=False, sort_keys=True,
separators=(",", ":"))` is embedded by `pyCanonJson`. -/

inductive PyVal where
  | none
  | bool (b : Bool)
  | int (n : Int)
  | str (s : String)
  | list (xs : List PyVal)
  | dict (kvs : List (String × PyVal))
deriving Repr

abbrev PyDict := List (String × PyVal)

/-- `d.get(k)` on a Python dict (`None` when the key is absent). -/
def dictGet (kvs : PyDict) (k : String) : PyVal :=
  match kvs.find? (fun kv => kv.1 == k) with
  | some kv => kv.2
  | Option.none => PyVal.none

/-- Python truthiness of a value. -/
def pyTruthy : PyVal → Bool
  | PyVal.none => false
  | PyVal.bool b => b
  | PyVal.int n => n != 0
  | PyVal.str s => s != ""
  | PyVal.list xs => !xs.isEmpty
  | PyVal.dict kvs => !kvs.isEmpty

/-- Python `a or b`. -/
def pyOr (a b : PyVal) : PyVal := if pyTruthy a then a else b

/-- Python `x is None`. -/
def pyIsNone : PyVal → Bool
  | PyVal.none => true
  | _ => false

/-- The association list of a dict value (`[]` for everything else; the
embedding is only applied where the source guarantees a dict). -/
def pyItems : PyVal → PyDict
  | PyVal.dict kvs => kvs
  | _ => []


/-- The characters `str.strip()` removes (ASCII whitespace; the embedded
strings are ASCII). -/
def pyIsSpaceChar (c : Char) : Bool :=
  c == ' ' || c == '\t' || c == '\n' || c == '\r' ||
    c.toNat == 11 || c.toNat == 12

/-- Python `s.strip()`. -/
def pyStrip (s : String) : String :=
  String.mk (((s.data.dropWhile pyIsSpaceChar).reverse.dropWhile
    pyIsSpaceChar).reverse)

/-- ASCII lowercasing of one character (`str.lower()` on the embedded
ASCII strings). -/
def lowerChar (c : Char) : Char :=
  if 65 ≤ c.toNat && c.toNat ≤ 90 then Char.ofNat (c.toNat + 32) else c

/-- Python `s.lower()`. -/
def pyLower (s : String) : String := String.mk (s.data.map lowerChar)

/-- Split a character list on the dot character (`s.split(".")`). -/
def splitDots : List Char → List (List Char)
  | [] => [[]]
  | c :: rest =>
    match splitDots rest with
    | [] => [[c]]
    | h :: t => if c = Char.ofNat 46 then [] :: h :: t else (c :: h) :: t

def squote : String := String.singleton (Char.ofNat 39)

mutual

/-- Python `repr()` restricted to JSON-shaped values (string escaping inside
`repr` is not modelled: the embedded strings carry no quotes). -/
def pyRepr : PyVal → String
  | PyVal.none => "None"
  | PyVal.bool true => "True"
  | PyVal.bool false => "False"
  | PyVal.int n => toString n
  | PyVal.str s => squote ++ s ++ squote
  | PyVal.list xs => "[" ++ String.intercalate ", " (pyReprList xs) ++ "]"
  | PyVal.dict kvs =>
      "\x7b" ++ String.intercalate ", " (pyReprKvs kvs) ++ "\x7d"

def pyReprList : List PyVal → List String
  | [] => []
  | x :: xs => pyRepr x :: pyReprList xs

def pyReprKvs : PyDict → List String
  | [] => []
  | (k, v) :: rest =>
      (squote ++ k ++ squote ++ ": " ++ pyRepr v) :: pyReprKvs rest

end

/-- Python `str()` as used by f-string interpolation. -/
def pyStr : PyVal → String
  | PyVal.none => "None"
  | PyVal.bool true => "True"
  | PyVal.bool false => "False"
  | PyVal.int n => toString n
  | PyVal.str s => s
  | PyVal.list xs => pyRepr (PyVal.list xs)
  | PyVal.dict kvs => pyRepr (PyVal.dict kvs)

/-- Code-point lexicographic order on strings (Python string `<`). -/
def charsLt : List Char → List Char → Bool
  | [], [] => false
  | [], _ :: _ => true
  | _ :: _, [] => false
  | a :: as, b :: bs =>
      if a.toNat < b.toNat then true
      else if b.toNat < a.toNat then false
      else charsLt as bs

def strLt (a b : String) : Bool := charsLt a.data b.data

/-- Insert into a list of key-tagged items, keeping keys sorted ascending. -/
def insertByKey (x : String × String) :
    List (String × String) → List (String × String)
  | [] => [x]
  | y :: ys =>
      if strLt y.1 x.1 then y :: insertByKey x ys else x :: y :: ys

/-- Sort key-tagged items by key (Python `sort_keys=True`). -/
def sortByKey (l : List (String × String)) : List (String × String) :=
  l.foldr insertByKey []

def hex4 (n : Nat) : String :=
  String.mk [Sha256.hexDigit (n / 4096 % 16), Sha256.hexDigit (n / 256 % 16),
             Sha256.hexDigit (n / 16 % 16), Sha256.hexDigit (n % 16)]

/-- JSON string escaping of one character (`ensure_ascii=False`). -/
def jsonEscChar (c : Char) : String :=
  if c = Char.ofNat 34 then "\\\""
  else if c = Char.ofNat 92 then "\\\\"
  else if c = Char.ofNat 10 then "\\n"
  else if c = Char.ofNat 13 then "\\r"
  else if c = Char.ofNat 9 then "\\t"
  else if c.toNat = 8 then "\\b"
  else if c.toNat = 12 then "\\f"
  else if c.toNat < 32 then "\\u" ++ hex4 c.toNat
  else String.singleton c

def jsonEscape (s : String) : String := String.join (s.data.map jsonEscChar)

mutual

/-- `json.dumps(v, ensure_ascii=False, sort_keys=True, separators=(",", ":"))`. -/
def pyCanonJson : PyVal → String
  | PyVal.none => "null"
  | PyVal.bool true => "true"
  | PyVal.bool false => "false"
  | PyVal.int n => toString n
  | PyVal.str s => "\"" ++ jsonEscape s ++ "\""
  | PyVal.list xs => "[" ++ String.intercalate "," (canonList xs) ++ "]"
  | PyVal.dict kvs =>
      let rendered := sortByKey (canonKvs kvs)
      "\x7b" ++
        String.intercalate ","
          (rendered.map (fun kv => "\"" ++ jsonEscape kv.1 ++ "\":" ++ kv.2)) ++
      "\x7d"

def canonList : List PyVal → List String
  | [] => []
  | x :: xs => pyCanonJson x :: canonList xs

def canonKvs : PyDict → List (String × String)
  | [] => []
  | (k, v) :: rest => (k, pyCanonJson v) :: canonKvs rest

end

/-! ## main.py: webhook fingerprint (`_make_dedupe_key`) -/

/-- `_make_dedupe_key(payload, query)` from `main.py`. -/
def make_dedupe_key (payload query : PyDict) : String :=
  let company_id := dictGet payload "company_id"
  let resource := pyOr (dictGet payload "resource") (dictGet payload "type")
  let resource_id := dictGet payload "resource_id"
  let event_status := dictGet payload "status"
  let last_change :=
    dictGet (pyItems (pyOr (dictGet payload "data") (PyVal.dict [])))
      "last_change_date"
  let secret := pyOr (dictGet query "secret") (dictGet query "userGuid")
  let base :=
    if pyIsNone company_id || pyIsNone resource ||
       pyIsNone resource_id || pyIsNone event_status then
      let canon := pyCanonJson (PyVal.dict payload)
      let digest := sha256_hex canon
      "fallback:" ++ digest
    else
      pyStr company_id ++ ":" ++ pyStr resource ++ ":" ++
      pyStr resource_id ++ ":" ++ pyStr event_status ++ ":" ++
      pyStr last_change ++ ":" ++ pyStr secret
  sha256_hex base

/-! ## Data model (models/models.py)

Rows are embedded as structures; only the columns read or written by the
embedded code paths are carried.  `Numeric(12, 2)` money columns are
embedded as integer cents.  Structure defaults mirror the column defaults
(`status="queued"`, `attempts=0`, `max_attempts=5`, ...). -/

structure MessageJob where
  id : Nat
  company_id : Int
  record_id : Option Nat := Option.none
  client_id : Option Nat := Option.none
  job_type : String
  run_at : Int
  status : String := "queued"
  attempts : Nat := 0
  max_attempts : Nat := 5
  last_error : Option String := Option.none
  dedupe_key : String
  payload : List (String × String) := []
  locked_at : Option Int := Option.none
  updated_at : Int := 0
deriving Repr, DecidableEq

structure Record where
  id : Nat
  company_id : Int
  altegio_record_id : Int
  client_id : Option Nat := Option.none
  altegio_client_id : Option Int := Option.none
  staff_id : Option Int := Option.none
  staff_name : Option String := Option.none
  starts_at : Option Int := Option.none
  ends_at : Option Int := Option.none
  duration_sec : Option Int := Option.none
  comment : Option String := Option.none
  short_link : Option String := Option.none
  confirmed : Option Int := Option.none
  attendance : Option Int := Option.none
  visit_attendance : Option Int := Option.none
  is_deleted : Bool := false
  total_cost : Option Int := Option.none
  last_change_at : Option Int := Option.none
deriving Repr, DecidableEq

structure Client where
  id : Nat
  company_id : Int
  altegio_client_id : Int
  phone_e164 : Option String := Option.none
  display_name : Option String := Option.none
  email : Option String := Option.none
deriving Repr, DecidableEq

structure RecordService where
  record_id : Nat
  service_id : Int
  title : Option String := Option.none
  amount : Option Int := Option.none
  cost_to_pay : Option Int := Option.none
deriving Repr, DecidableEq

structure MessageTemplate where
  id : Nat
  company_id : Int
  code : String
  language : String := "de"
  body : String
  is_active : Bool := true
deriving Repr, DecidableEq

structure OutboxMessage where
  id : Nat
  company_id : Int
  client_id : Option Nat := Option.none
  record_id : Option Nat := Option.none
  job_id : Option Nat := Option.none
  sender_id : Option Nat := Option.none
  phone_e164 : String
  template_code : String
  language : String := "de"
  body : String
  status : String := "queued"
  error : Option String := Option.none
  provider_message_id : Option String := Option.none
  scheduled_at : Int
  sent_at : Option Int := Option.none
deriving Repr, DecidableEq

structure ContactRateLimit where
  phone_e164 : String
  next_allowed_at : Int
deriving Repr, DecidableEq

structure WhatsAppSender where
  id : Nat
  company_id : Int
  sender_code : String
  phone_number_id : String
  is_active : Bool := true
deriving Repr, DecidableEq

structure ServiceSenderRule where
  id : Nat
  company_id : Int
  service_id : Int
  sender_code : String
deriving Repr, DecidableEq

/-- An ingested webhook event.  The extracted columns keep the Python
`int | None` / `str | None` shape via `PyVal`, matching the `or`-fallback
reads in `handle_event`. -/
structure AltegioEvent where
  id : Nat
  dedupe_key : String
  status : String := "received"
  processed_at : Option Int := Option.none
  error : Option String := Option.none
  company_id : PyVal := PyVal.none
  resource : PyVal := PyVal.none
  resource_id : PyVal := PyVal.none
  event_status : PyVal := PyVal.none
  payload : PyVal := PyVal.dict []
deriving Repr

/-! ## message_planner.py -/

def UPDATE_DEBOUNCE_SEC : Int := 60

def FOLLOWUP_REPEAT_DAYS : Int := 10

def REVIEW_REQUEST_DAYS : Int := 3

def FOLLOWUP_JOB_TYPES : List String := ["repeat_10d", "review_3d"]

def REMINDER_JOB_TYPES : List String := ["reminder_24h", "reminder_2h"]

def SYSTEM_JOB_TYPES : List String :=
  ["record_created", "record_updated", "record_canceled"] ++
    REMINDER_JOB_TYPES ++ ["comeback_3d"] ++ FOLLOWUP_JOB_TYPES

/-- `run_at.isoformat()`: timestamps are embedded as integer seconds, and
their ISO form as the decimal string (injective, like `isoformat`). -/
def datetimeIso (t : Int) : String := toString t

/-- `f"...{run_at}"` (i.e. `str(datetime)`): embedded as the decimal string
of the integer seconds, like `datetimeIso`; the source never compares a
`str()`-formatted key with an `isoformat()`-formatted one. -/
def datetimeStr (t : Int) : String := toString t

/-- `_dedupe_key(job_type, record_id, run_at, now=...)` from
message_planner.py (`int(dt.timestamp()) // 60` on post-epoch datetimes is
floor division). -/
def dedupe_key (job_type : String) (record_id : Nat) (run_at : Int)
    (now : Option Int) : String :=
  if job_type == "record_updated" then
    let base_dt := now.getD run_at
    let bucket := base_dt / UPDATE_DEBOUNCE_SEC
    job_type ++ ":" ++ toString record_id ++ ":" ++ toString bucket
  else
    job_type ++ ":" ++ toString record_id ++ ":" ++ datetimeIso run_at

/-- Largest id present in the jobs table (0 when empty); fresh autoincrement
ids are `maxJobId + 1`. -/
def maxJobId (jobs : List MessageJob) : Nat :=
  jobs.foldl (fun m j => max m j.id) 0

/-- `cancel_queued_jobs(...)`: one UPDATE filtered by
`(record_id, job_type IN ..., status == "queued")`. -/
def cancel_queued_jobs (jobs : List MessageJob) (record_id : Nat)
    (job_types : List String) (now : Int) : List MessageJob :=
  if job_types.isEmpty then jobs
  else
    jobs.map (fun j =>
      if j.record_id == some record_id && job_types.contains j.job_type &&
         j.status == "queued" then
        { j with status := "canceled", updated_at := now }
      else j)

/-- `enqueue_job(...)`: `INSERT ... ON CONFLICT (dedupe_key) DO UPDATE
SET ... WHERE status = "canceled"` (PostgreSQL: on a conflicting key the
update applies only where the condition holds, otherwise nothing happens). -/
def enqueue_job (jobs : List MessageJob) (company_id : Int)
    (record_id : Nat) (client_id : Option Nat) (job_type : String)
    (run_at : Int) (now : Option Int) : List MessageJob :=
  let dk := dedupe_key job_type record_id run_at now
  if jobs.any (fun j => j.dedupe_key == dk) then
    jobs.map (fun j =>
      if j.dedupe_key == dk && j.status == "canceled" then
        { j with
            company_id := company_id,
            record_id := some record_id,
            client_id := client_id,
            job_type := job_type,
            run_at := run_at,
            status := "queued" }
      else j)
  else
    jobs ++ [{ id := maxJobId jobs + 1, company_id := company_id,
               record_id := some record_id, client_id := client_id,
               job_type := job_type, run_at := run_at, status := "queued",
               dedupe_key := dk }]

/-- `add_job(...)`: `session.add(job)` with dedupe key
`f"{job_type}:{company_id}:{record_id}:{run_at}"`.  `session.add` only
registers the row with the session; the plain INSERT runs at flush (see
`insertAll`), where the database assigns the id — pending rows carry
`id := 0`. -/
def add_job (pending : List MessageJob) (company_id : Int)
    (record_id : Nat) (client_id : Option Nat) (job_type : String)
    (run_at : Int) (payload : List (String × String)) : List MessageJob :=
  let dk := job_type ++ ":" ++ toString company_id ++ ":" ++
    toString record_id ++ ":" ++ datetimeStr run_at
  pending ++ [{ id := 0, company_id := company_id,
                record_id := some record_id, client_id := client_id,
                job_type := job_type, run_at := run_at, status := "queued",
                dedupe_key := dk, payload := payload }]

/-- `_plan_reminders(...)`, extending the session's pending inserts. -/
def plan_reminders (pending : List MessageJob) (record : Record)
    (client_id : Option Nat) (now : Int) : List MessageJob :=
  match record.starts_at with
  | Option.none => pending
  | some starts_at =>
    let delta := starts_at - now
    let reminder_at_24h := starts_at - 24 * 3600
    let reminder_at_2h := starts_at - 2 * 3600
    if delta > 24 * 3600 then
      add_job pending record.company_id record.id client_id "reminder_24h"
        reminder_at_24h [("kind", "reminder_24h")]
    else if delta > 2 * 3600 then
      add_job pending record.company_id record.id client_id "reminder_2h"
        reminder_at_2h [("kind", "reminder_2h")]
    else pending

/-- `_plan_followups(...)`, extending the session's pending inserts. -/
def plan_followups (pending : List MessageJob) (record : Record)
    (client_id : Option Nat) : List MessageJob :=
  match record.starts_at with
  | Option.none => pending
  | some starts_at =>
    let pending1 := add_job pending record.company_id record.id client_id
      "review_3d" (starts_at + REVIEW_REQUEST_DAYS * 86400)
      [("kind", "review_3d")]
    add_job pending1 record.company_id record.id client_id
      "repeat_10d" (starts_at + FOLLOWUP_REPEAT_DAYS * 86400)
      [("kind", "repeat_10d")]

/-- `plan_jobs_for_record_event(...)`: the `cancel_queued_jobs` UPDATE
executes in the transaction at once, while the `add_job` rows are only
registered with the session; the call returns the updated table together
with the pending inserts, which flush at commit (`plan_jobs_commit`).
The several `utcnow()` reads inside one call are embedded by the single
instant `now`. -/
def plan_jobs_for_record_event (jobs : List MessageJob)
    (records : List Record) (company_id : Int) (record_id : Nat)
    (status : String) (now : Int) :
    List MessageJob × List MessageJob :=
  match records.find? (fun r => r.company_id == company_id &&
      r.id == record_id) with
  | Option.none => (jobs, [])
  | some record =>
    let client_id := record.client_id
    if status == "create" then
      let p1 := add_job [] company_id record.id client_id
        "record_created" now [("kind", "record_created")]
      let p2 := plan_reminders p1 record client_id now
      (jobs, plan_followups p2 record client_id)
    else if status == "update" then
      let jobs1 := cancel_queued_jobs jobs record.id SYSTEM_JOB_TYPES now
      let p1 := add_job [] company_id record.id client_id
        "record_updated" now [("kind", "record_updated")]
      let p2 := plan_reminders p1 record client_id now
      (jobs1, plan_followups p2 record client_id)
    else if status == "delete" then
      let jobs1 := cancel_queued_jobs jobs record.id SYSTEM_JOB_TYPES now
      let p1 := add_job [] company_id record.id client_id
        "record_canceled" now [("kind", "record_canceled")]
      (jobs1, add_job p1 company_id record.id client_id
        "comeback_3d" (now + 3 * 86400) [("kind", "comeback_3d")])
    else (jobs, [])

/-- Flush of the session's pending `add_job` rows: each plain INSERT whose
dedupe key already names a row violates the unique index on
`message_jobs.dedupe_key` (models.py: `unique=True`) and raises
IntegrityError; on success the database assigns the ids in insert order. -/
def insertAll (table : List MessageJob) :
    List MessageJob → Except String (List MessageJob)
  | [] => Except.ok table
  | j :: rest =>
    if table.any (fun x => x.dedupe_key == j.dedupe_key) then
      Except.error ("IntegrityError: duplicate key value violates " ++
        "unique constraint on message_jobs.dedupe_key: " ++ j.dedupe_key)
    else insertAll (table ++ [{ j with id := maxJobId table + 1 }]) rest

/-- One planner call as one transaction: on a clean flush the updated
table plus the inserted rows commit; on IntegrityError the whole
transaction (the `cancel_queued_jobs` UPDATE included) rolls back,
leaving the original table, and the error propagates. -/
def plan_jobs_commit (jobs : List MessageJob) (records : List Record)
    (company_id : Int) (record_id : Nat) (status : String) (now : Int) :
    List MessageJob × Option String :=
  let pr := plan_jobs_for_record_event jobs records company_id record_id
    status now
  match insertAll pr.1 pr.2 with
  | Except.ok t => (t, Option.none)
  | Except.error e => (jobs, some e)

/-- A pending row and its inserted image differ only in the id column. -/
def stripId (j : MessageJob) : MessageJob := { j with id := 0 }

/-! ## String helpers for workers/outbox_worker.py -/

/-- Does the character list start with the needle? -/
def startsWithChars : List Char → List Char → Bool
  | _, [] => true
  | [], _ :: _ => false
  | a :: as, b :: bs => a == b && startsWithChars as bs

/-- Does the character list contain the needle as a contiguous run? -/
def containsChars : List Char → List Char → Bool
  | [], needle => needle.isEmpty
  | a :: rest, needle =>
      startsWithChars (a :: rest) needle || containsChars rest needle

/-- Python `needle in hay` on strings. -/
def strContains (hay needle : String) : Bool :=
  containsChars hay.data needle.data

/-- `None → "None"`, as Python `str()` inside an f-string / format field. -/
def pyStrOpt : Option String → String
  | Option.none => "None"
  | some s => s

def pad2 (n : Int) : String :=
  if n < 10 then "0" ++ toString n else toString n

/-- `astimezone()` converts to the process-local zone; the embedding fixes
that zone as a constant UTC offset (its value is irrelevant to the claims,
which do not constrain the rendered date strings). -/
def LOCAL_TZ_OFFSET_SEC : Int := 3600

/-- Days-to-civil-date conversion (proleptic Gregorian). -/
def civilFromDays (z0 : Int) : Int × Int × Int :=
  let z := z0 + 719468
  let era := z / 146097
  let doe := z - era * 146097
  let yoe := (doe - doe / 1460 + doe / 36524 - doe / 146096) / 365
  let y := yoe + era * 400
  let doy := doe - (365 * yoe + yoe / 4 - yoe / 100)
  let mp := (5 * doy + 2) / 153
  let d := doy - (153 * mp + 2) / 5 + 1
  let m := mp + (if mp < 10 then 3 else -9)
  (y + (if m ≤ 2 then 1 else 0), m, d)

/-! ## workers/outbox_worker.py -/

def MIN_SECONDS_BETWEEN_MESSAGES : Int := 30

def DEFAULT_LANGUAGE : String := "de"

def PAST_RECORD_GRACE_MINUTES : Int := 5

def TOKEN_EXPIRED_RETRY_SECONDS : Int := 60

def STALE_PROCESSING_MINUTES : Int := 10

def DEFAULT_LANGUAGE_BY_COMPANY : List (Int × String) :=
  [(758285, "de"), (1271200, "de")]

def UNSUBSCRIBE_LINKS : List (Int × String) :=
  [(758285, "https://example.com/unsubscribe/karlsruhe"),
   (1271200, "https://example.com/unsubscribe/rastatt")]

def PRE_APPOINTMENT_NOTES_DE : String :=
  "\n\nWichtige Hinweise vor dem Termin:\n" ++
  "• Bitte pünktlich kommen — ab 15 Min. Verspätung können wir " ++
  "nicht garantieren, dass der Termin stattfindet.\n" ++
  "• Wimpern bitte sauber: ohne Mascara, ohne geklebte Wimpern.\n" ++
  "• Falls Sie schon eine Kundenkarte haben, bitte mitbringen.\n" ++
  "• Auffüllen: ab 3. Woche 60 €, ab 4. Woche 70 €, ab 5. Woche " ++
  "keine Auffüllung (Neuauflage).\n" ++
  "• Zahlung: bar oder mit Karte.\n"

def SUCCESS_OUTBOX_STATUSES : List String := ["sent", "delivered", "read"]

/-- `_record_is_in_past(record)` at instant `now`. -/
def record_is_in_past (record : Option Record) (now : Int) : Bool :=
  match record with
  | Option.none => false
  | some r =>
    match r.starts_at with
    | Option.none => false
    | some starts_at => starts_at < now - PAST_RECORD_GRACE_MINUTES * 60

/-- `ORDER BY id DESC LIMIT 1` over outbox rows. -/
def latestById (rows : List OutboxMessage) : Option OutboxMessage :=
  rows.foldl
    (fun acc o =>
      match acc with
      | Option.none => some o
      | some b => if o.id > b.id then some o else some b)
    Option.none

/-- `_find_success_outbox(session, job_id)`. -/
def find_success_outbox (outbox : List OutboxMessage) (job_id : Nat) :
    Option OutboxMessage :=
  latestById (outbox.filter (fun o =>
    o.job_id == some job_id && SUCCESS_OUTBOX_STATUSES.contains o.status))

/-- `_retry_delay_seconds(attempt)`. -/
def retry_delay_seconds (attempt : Nat) : Int :=
  min (30 * 2 ^ (attempt - 1)) (15 * 60)

/-- `_fmt_money(value)`: money columns are embedded as integer cents, and
`f"{value:.2f}"` renders them with two decimals. -/
def fmt_money (cents : Option Int) : String :=
  match cents with
  | Option.none => "0.00"
  | some v =>
    let sign := if v < 0 then "-" else ""
    let a := v.natAbs
    sign ++ toString (a / 100) ++ "." ++ pad2 (Int.ofNat (a % 100))

/-- `_fmt_date(dt)` (`%d.%m.%Y` in the process-local zone). -/
def fmt_date (dt : Option Int) : String :=
  match dt with
  | Option.none => ""
  | some t =>
    let loc := t + LOCAL_TZ_OFFSET_SEC
    let c := civilFromDays (loc / 86400)
    pad2 c.2.2 ++ "." ++ pad2 c.2.1 ++ "." ++ toString c.1

/-- `_fmt_time(dt)` (`%H:%M` in the process-local zone). -/
def fmt_time (dt : Option Int) : String :=
  match dt with
  | Option.none => ""
  | some t =>
    let loc := t + LOCAL_TZ_OFFSET_SEC
    pad2 ((loc % 86400) / 3600) ++ ":" ++ pad2 ((loc % 3600) / 60)

/-- `_apply_rate_limit(session, phone_e164)`: insert-if-absent, lock the
row; if gated return the gate instant, else advance the gate by 30 s. -/
def apply_rate_limit (rls : List ContactRateLimit) (phone : String)
    (now : Int) : List ContactRateLimit × Option Int :=
  let rls1 :=
    if rls.any (fun r => r.phone_e164 == phone) then rls
    else rls ++ [{ phone_e164 := phone, next_allowed_at := now }]
  match rls1.find? (fun r => r.phone_e164 == phone) with
  | Option.none => (rls1, Option.none)
  | some rl =>
    if rl.next_allowed_at > now then (rls1, some rl.next_allowed_at)
    else
      (rls1.map (fun r =>
        if r.phone_e164 == phone then
          { r with next_allowed_at := now + MIN_SECONDS_BETWEEN_MESSAGES }
        else r),
       Option.none)

/-- `_pick_language(company_id, client)`. -/
def pick_language (company_id : Int) (_client : Option Client) : String :=
  match DEFAULT_LANGUAGE_BY_COMPANY.find? (fun kv => kv.1 == company_id) with
  | some kv => kv.2
  | Option.none => DEFAULT_LANGUAGE

/-- `ORDER BY id ASC LIMIT 1` over templates. -/
def earliestTemplateById (ts : List MessageTemplate) :
    Option MessageTemplate :=
  ts.foldl
    (fun acc t =>
      match acc with
      | Option.none => some t
      | some b => if t.id < b.id then some t else some b)
    Option.none

/-- `_load_template(...)`: preferred language, then the default language,
then any active row ordered by id.  (The first two lookups carry no ORDER
BY in the source; the embedding takes the first row in table order.) -/
def load_template (templates : List MessageTemplate) (company_id : Int)
    (template_code language : String) :
    Option MessageTemplate × String :=
  let base := templates.filter (fun t =>
    t.company_id == company_id && t.code == template_code && t.is_active)
  match base.find? (fun t => t.language == language) with
  | some tmpl => (some tmpl, language)
  | Option.none =>
    let second :=
      if language != DEFAULT_LANGUAGE then
        base.find? (fun t => t.language == DEFAULT_LANGUAGE)
      else Option.none
    match second with
    | some tmpl => (some tmpl, DEFAULT_LANGUAGE)
    | Option.none =>
      match earliestTemplateById base with
      | some tmpl => (some tmpl, tmpl.language)
      | Option.none => (Option.none, language)

/-! ## whatsapp_routing.py -/

/-- `ORDER BY service_id ASC LIMIT 1` over a record's services. -/
def minByServiceId (svcs : List RecordService) : Option RecordService :=
  svcs.foldl
    (fun acc s =>
      match acc with
      | Option.none => some s
      | some b => if s.service_id < b.service_id then some s else some b)
    Option.none

/-- `pick_sender_code_for_record(session, company_id, record_id)`. -/
def pick_sender_code_for_record (record_services : List RecordService)
    (rules : List ServiceSenderRule) (company_id : Int) (record_id : Nat) :
    String :=
  match minByServiceId
      (record_services.filter (fun s => s.record_id == record_id)) with
  | Option.none => "default"
  | some svc =>
    match rules.find? (fun r =>
        r.company_id == company_id && r.service_id == svc.service_id) with
    | Option.none => "default"
    | some rule => if rule.sender_code == "" then "default"
                   else rule.sender_code

/-- `pick_sender_id(session, company_id, sender_code)`. -/
def pick_sender_id (senders : List WhatsAppSender) (company_id : Int)
    (sender_code : String) : Option Nat :=
  match senders.find? (fun s => s.company_id == company_id &&
      s.sender_code == sender_code && s.is_active) with
  | some s => some s.id
  | Option.none =>
    if sender_code == "default" then Option.none
    else
      match senders.find? (fun s => s.company_id == company_id &&
          s.sender_code == "default" && s.is_active) with
      | some s => some s.id
      | Option.none => Option.none

/-- `_is_new_client_for_record(...)`: true iff no other record of the same
company and client starts strictly earlier. -/
def is_new_client_for_record (records : List Record) (company_id : Int)
    (client_id : Option Nat) (record_id : Option Nat)
    (record_starts_at : Option Int) : Bool :=
  match client_id, record_id, record_starts_at with
  | some cid, some rid, some starts =>
    !(records.any (fun r =>
      r.company_id == company_id && r.client_id == some cid &&
      r.id != rid &&
      (match r.starts_at with
       | some s => s < starts
       | Option.none => false)))
  | _, _, _ => false

/-! ## str.format with named fields (`tmpl.body.format(**ctx)`)

Only plain named fields occur in this repository's templates; conversion
and format-spec suffixes inside a replacement field are not modelled.
`str(KeyError(name))` is the quoted name. -/

/-- `body.format(**ctx)` for plain named replacement fields, as a state
machine over the character list: `field = none` outside a replacement
field, `field = some acc` inside one (name accumulated in reverse; an
opening brace met with an empty accumulator is the `\x7b\x7b` escape). -/
def formatChars (cs : List Char) (field : Option (List Char))
    (ctx : List (String × String)) : Except String String :=
  match cs, field with
  | [], Option.none => Except.ok ""
  | [], some _ =>
      Except.error ("Single '" ++ String.singleton (Char.ofNat 123) ++
        "' encountered in format string")
  | c :: rest, Option.none =>
    if c = Char.ofNat 123 then
      formatChars rest (some []) ctx
    else if c = Char.ofNat 125 then
      match rest with
      | c2 :: rest2 =>
        if c2 = Char.ofNat 125 then
          (formatChars rest2 Option.none ctx).map
            (fun s => String.singleton (Char.ofNat 125) ++ s)
        else
          Except.error ("Single '" ++ String.singleton (Char.ofNat 125) ++
            "' encountered in format string")
      | [] =>
        Except.error ("Single '" ++ String.singleton (Char.ofNat 125) ++
          "' encountered in format string")
    else
      (formatChars rest Option.none ctx).map
        (fun s => String.singleton c ++ s)
  | c :: rest, some acc =>
    if c = Char.ofNat 123 && acc.isEmpty then
      (formatChars rest Option.none ctx).map
        (fun s => String.singleton (Char.ofNat 123) ++ s)
    else if c = Char.ofNat 125 then
      let name := String.mk acc.reverse
      match ctx.find? (fun kv => kv.1 == name) with
      | Option.none => Except.error (squote ++ name ++ squote)
      | some kv =>
        (formatChars rest Option.none ctx).map (fun s => kv.2 ++ s)
    else formatChars rest (some (c :: acc)) ctx

def pyFormat (tmpl : String) (ctx : List (String × String)) :
    Except String String :=
  formatChars tmpl.data Option.none ctx

/-! ## providers/dummy.py -/

/-- The environment the provider helpers read: the two env vars and the
last component of the provider class's module name. -/
structure WorkerEnv where
  whatsapp_provider_env : Option String := Option.none
  allow_real_send_env : Option String := Option.none
  provider_module : String := "dummy"
deriving Repr, DecidableEq

def META_PROVIDER_KEY : String := "meta_cloud"

/-- `_provider_key(provider)`. -/
def provider_key (env : WorkerEnv) : String :=
  let key := pyLower (pyStrip (env.whatsapp_provider_env.getD ""))
  if key != "" then key
  else pyLower (pyStrip env.provider_module)

/-- `_real_send_allowed(provider)`. -/
def real_send_allowed (env : WorkerEnv) : Bool :=
  if provider_key env != META_PROVIDER_KEY then true
  else pyStrip (env.allow_real_send_env.getD "0") == "1"

/-- `safe_send(provider, sender_id, phone, text)`.  The external
`provider.send` call is embedded by its outcome `send_result`
(`ok messageId` when it returns, `error msg` when it raises). -/
def safe_send (env : WorkerEnv) (send_result : Except String String) :
    Option String × Option String :=
  if !(real_send_allowed env) then
    (Option.none, some "Real send disabled")
  else
    match send_result with
    | Except.ok msg_id => (some msg_id, Option.none)
    | Except.error e => (Option.none, some (toString e))

/-- `_is_token_expired_error(err)`. -/
def is_token_expired_error (err : String) : Bool :=
  strContains (pyLower err) "access token" &&
    strContains (pyLower err) "expired"

/-! ## workers/outbox_worker.py: rendering and the per-job transaction -/

/-- The tables `process_job_in_session` touches. -/
structure WorkerDb where
  jobs : List MessageJob := []
  outbox : List OutboxMessage := []
  records : List Record := []
  clients : List Client := []
  record_services : List RecordService := []
  templates : List MessageTemplate := []
  senders : List WhatsAppSender := []
  sender_rules : List ServiceSenderRule := []
  rate_limits : List ContactRateLimit := []
deriving Repr, DecidableEq

/-- Insertion step for sorting services ascending by `service_id`. -/
def insertSvc (x : RecordService) :
    List RecordService → List RecordService
  | [] => [x]
  | y :: ys =>
    if y.service_id ≤ x.service_id then y :: insertSvc x ys
    else x :: y :: ys

/-- `ORDER BY service_id ASC` over a record's services. -/
def sortByServiceIdAsc (svcs : List RecordService) : List RecordService :=
  svcs.foldr insertSvc []

/-- `_render_message(...)`: template lookup with language fallback, the
services block, sender routing, the first-visit notes, and
`tmpl.body.format(**ctx)`. -/
def render_message (db : WorkerDb) (company_id : Int)
    (template_code : String) (record : Option Record)
    (client : Option Client) : Except String (String × Nat × String) :=
  let language := pick_language company_id client
  match load_template db.templates company_id template_code language with
  | (Option.none, _) =>
    Except.error ("Template not found: company=" ++ toString company_id ++
      " code=" ++ template_code)
  | (some tmpl, used_lang) =>
    let sorted_services :=
      match record with
      | Option.none => []
      | some r =>
        sortByServiceIdAsc
          (db.record_services.filter (fun s => s.record_id == r.id))
    let services_text := String.intercalate "\n"
      (sorted_services.map (fun svc =>
        pyStrOpt svc.title ++ " — " ++ fmt_money svc.cost_to_pay ++ "€"))
    let total_cost := sorted_services.foldl
      (fun acc svc =>
        match svc.cost_to_pay with
        | some c => acc + c
        | Option.none => acc)
      (0 : Int)
    let unsubscribe_link :=
      match UNSUBSCRIBE_LINKS.find? (fun kv => kv.1 == company_id) with
      | some kv => kv.2
      | Option.none => ""
    let sender_code :=
      match record with
      | Option.none => "default"
      | some r =>
        pick_sender_code_for_record db.record_services db.sender_rules
          company_id r.id
    match pick_sender_id db.senders company_id sender_code with
    | Option.none =>
      Except.error ("No active sender for company=" ++
        toString company_id ++ " code=" ++ sender_code)
    | some sender_id =>
      let pre_appointment_notes :=
        match record with
        | some r =>
          if template_code == "record_created" && used_lang == "de" &&
             is_new_client_for_record db.records company_id r.client_id
               (some r.id) r.starts_at then
            PRE_APPOINTMENT_NOTES_DE
          else ""
        | Option.none => ""
      let ctx : List (String × String) :=
        [("client_name",
          match client with
          | some c => pyStrOpt c.display_name
          | Option.none => ""),
         ("staff_name",
          match record with
          | some r => pyStrOpt r.staff_name
          | Option.none => ""),
         ("date", fmt_date (record.bind (fun r => r.starts_at))),
         ("time", fmt_time (record.bind (fun r => r.starts_at))),
         ("services", services_text),
         ("total_cost", fmt_money (some total_cost)),
         ("short_link",
          match record with
          | some r => pyStrOpt r.short_link
          | Option.none => ""),
         ("unsubscribe_link", unsubscribe_link),
         ("sender_id", toString sender_id),
         ("sender_code", sender_code),
         ("pre_appointment_notes", pre_appointment_notes)]
      match pyFormat tmpl.body ctx with
      | Except.error e => Except.error e
      | Except.ok body => Except.ok (body, sender_id, used_lang)

/-- `_load_record(session, job)`. -/
def load_record (records : List Record) (job : MessageJob) :
    Option Record :=
  job.record_id.bind (fun rid => records.find? (fun r => r.id == rid))

/-- `_load_client(session, job, record)`. -/
def load_client (clients : List Client) (job : MessageJob)
    (record : Option Record) : Option Client :=
  match job.client_id with
  | some cid => clients.find? (fun c => c.id == cid)
  | Option.none =>
    match record with
    | some r =>
      r.client_id.bind (fun cid => clients.find? (fun c => c.id == cid))
    | Option.none => Option.none

/-- What happened outside the database during one `process_job_in_session`
call. -/
structure StepInfo where
  safe_send_called : Bool := false
  provider_called : Bool := false
  token_expired_marked : Bool := false
deriving Repr, DecidableEq

def maxOutboxId (rows : List OutboxMessage) : Nat :=
  rows.foldl (fun m o => max m o.id) 0

/-- Replace the job row with the matching id. -/
def updateJob (jobs : List MessageJob) (j : MessageJob) :
    List MessageJob :=
  jobs.map (fun x => if x.id == j.id then j else x)

/-- `process_job_in_session(session, job_id, provider)`: the whole per-job
transaction.  The several `utcnow()` reads during one call are embedded by
the single instant `now`; the provider call outcome by `send_result`. -/
def process_job_in_session (db : WorkerDb) (job_id : Nat)
    (env : WorkerEnv) (send_result : Except String String) (now : Int) :
    WorkerDb × StepInfo :=
  match db.jobs.find? (fun j => j.id == job_id) with
  | Option.none => (db, {})
  | some job =>
    match find_success_outbox db.outbox job.id with
    | some _ =>
      let job' :=
        { job with
            status := "done",
            locked_at := Option.none,
            last_error := Option.none }
      ({ db with jobs := updateJob db.jobs job' }, {})
    | Option.none =>
      if job.attempts ≥ job.max_attempts then
        let job' := { job with
            status := "failed",
            locked_at := Option.none,
            last_error := some "Max attempts reached" }
        ({ db with jobs := updateJob db.jobs job' }, {})
      else
        let record := load_record db.records job
        if record_is_in_past record now then
          let job' :=
            { job with
                status := "canceled",
                locked_at := Option.none,
                last_error := some "Skipped: record starts_at is in the past" }
          ({ db with jobs := updateJob db.jobs job' }, {})
        else
          let client := load_client db.clients job record
          let phone := client.bind (fun c => c.phone_e164)
          match phone with
          | Option.none =>
            let job' :=
              { job with
                  status := "failed",
                  locked_at := Option.none,
                  last_error := some "No phone_e164" }
            ({ db with jobs := updateJob db.jobs job' }, {})
          | some p =>
            if p == "" then
              let job' :=
                { job with
                    status := "failed",
                    locked_at := Option.none,
                    last_error := some "No phone_e164" }
              ({ db with jobs := updateJob db.jobs job' }, {})
            else
              let rl := apply_rate_limit db.rate_limits p now
              let db1 := { db with rate_limits := rl.1 }
              match rl.2 with
              | some delay_until =>
                let job' :=
                  { job with
                      status := "queued",
                      locked_at := Option.none,
                      run_at := delay_until }
                ({ db1 with jobs := updateJob db1.jobs job' }, {})
              | Option.none =>
                match render_message db1 job.company_id job.job_type
                    record client with
                | Except.error exc =>
                  let job' :=
                    { job with
                        status := "failed",
                        locked_at := Option.none,
                        last_error := some ("Template render error: " ++ exc) }
                  ({ db1 with jobs := updateJob db1.jobs job' }, {})
                | Except.ok (body, sender_id, lang) =>
                  let attempts := job.attempts + 1
                  let sent := safe_send env send_result
                  let info : StepInfo :=
                    { safe_send_called := true,
                      provider_called := real_send_allowed env }
                  match sent.2 with
                  | some err =>
                    let out : OutboxMessage :=
                      { id := maxOutboxId db1.outbox + 1,
                        company_id := job.company_id,
                        client_id := client.map (fun c => c.id),
                        record_id := record.map (fun r => r.id),
                        job_id := some job.id,
                        sender_id := some sender_id,
                        phone_e164 := p,
                        template_code := job.job_type,
                        language := lang,
                        body := body,
                        status := "failed",
                        error := some err,
                        provider_message_id := sent.1,
                        scheduled_at := job.run_at,
                        sent_at := some now }
                    let db2 := { db1 with outbox := db1.outbox ++ [out] }
                    if is_token_expired_error err then
                      let job' :=
                        { job with
                            attempts := attempts,
                            status := "queued",
                            locked_at := Option.none,
                            run_at := now + TOKEN_EXPIRED_RETRY_SECONDS,
                            last_error := some ("Send blocked: " ++ err) }
                      ({ db2 with jobs := updateJob db2.jobs job' },
                       { info with token_expired_marked := true })
                    else
                      if attempts ≥ job.max_attempts then
                        let job' :=
                          { job with
                              attempts := attempts,
                              status := "failed",
                              locked_at := Option.none,
                              last_error := some ("Send failed: " ++ err) }
                        ({ db2 with jobs := updateJob db2.jobs job' }, info)
                      else
                        let job' :=
                          { job with
                              attempts := attempts,
                              status := "queued",
                              locked_at := Option.none,
                              last_error := some ("Send failed: " ++ err),
                              run_at := now + retry_delay_seconds attempts }
                        ({ db2 with jobs := updateJob db2.jobs job' }, info)
                  | Option.none =>
                    let out : OutboxMessage :=
                      { id := maxOutboxId db1.outbox + 1,
                        company_id := job.company_id,
                        client_id := client.map (fun c => c.id),
                        record_id := record.map (fun r => r.id),
                        job_id := some job.id,
                        sender_id := some sender_id,
                        phone_e164 := p,
                        template_code := job.job_type,
                        language := lang,
                        body := body,
                        status := "sent",
                        error := Option.none,
                        provider_message_id := sent.1,
                        scheduled_at := job.run_at,
                        sent_at := some now }
                    let db2 := { db1 with outbox := db1.outbox ++ [out] }
                    let job' :=
                      { job with
                          attempts := attempts,
                          status := "done",
                          locked_at := Option.none,
                          last_error := Option.none }
                    ({ db2 with jobs := updateJob db2.jobs job' }, info)

/-! ## workers/inbox_worker.py -/

/-- `ZoneInfo("Europe/Belgrade")` as a fixed UTC offset (DST is not
modelled; no claim constrains the parsed instants). -/
def BELGRADE_UTC_OFFSET_SEC : Int := 3600

/-- Civil-date-to-days conversion (proleptic Gregorian). -/
def daysFromCivil (y m d : Int) : Int :=
  let y1 := y - (if m ≤ 2 then 1 else 0)
  let era := y1 / 400
  let yoe := y1 - era * 400
  let mp := (m + 9) % 12
  let doy := (153 * mp + 2) / 5 + d - 1
  let doe := yoe * 365 + yoe / 4 - yoe / 100 + doy
  era * 146097 + doe - 719468

def digitVal (c : Char) : Option Nat :=
  if c.isDigit then some (c.toNat - 48) else Option.none

def parse2 : List Char → Option (Nat × List Char)
  | a :: b :: rest =>
    match digitVal a, digitVal b with
    | some x, some y => some (x * 10 + y, rest)
    | _, _ => Option.none
  | _ => Option.none

def parse4 : List Char → Option (Nat × List Char)
  | a :: b :: c :: d :: rest =>
    match digitVal a, digitVal b, digitVal c, digitVal d with
    | some w, some x, some y, some z =>
      some (w * 1000 + x * 100 + y * 10 + z, rest)
    | _, _, _, _ => Option.none
  | _ => Option.none

/-- Optional `:SS` suffix of a time. -/
def parseSeconds : List Char → Option (Nat × List Char)
  | ':' :: rest =>
    match parse2 rest with
    | some (s, r) => some (s, r)
    | Option.none => Option.none
  | rest => some (0, rest)

/-- Optional fractional part `.fff` or `.ffffff` (sub-second precision is
dropped: instants are embedded at second resolution). -/
def parseFraction : List Char → Option (List Char)
  | '.' :: rest =>
    let ds := rest.takeWhile (fun c => c.isDigit)
    if ds.length == 3 || ds.length == 6 then
      some (rest.drop ds.length)
    else Option.none
  | rest => some rest

/-- Optional `±HH:MM[:SS]` offset. -/
def parseOffset : List Char → Option (Option Int × List Char)
  | [] => some (Option.none, [])
  | c :: rest =>
    if c = '+' || c = '-' then
      match parse2 rest with
      | Option.none => Option.none
      | some (oh, r1) =>
        match r1 with
        | ':' :: r2 =>
          match parse2 r2 with
          | Option.none => Option.none
          | some (om, r3) =>
            match parseSeconds r3 with
            | Option.none => Option.none
            | some (os, r4) =>
              let mag : Int := oh * 3600 + om * 60 + os
              some (some (if c = '-' then -mag else mag), r4)
        | _ => Option.none
    else Option.none

/-- `datetime.fromisoformat(v)`, for the `YYYY-MM-DD[*HH:MM[:SS[.f*]]
[±HH:MM[:SS]]]` shapes it accepted before Python 3.11: the parsed instant
in seconds (UTC for aware inputs, naive otherwise) plus whether an offset
was present. -/
def fromisoformat (s : String) : Option (Int × Bool) :=
  match parse4 s.data with
  | Option.none => Option.none
  | some (y, r1) =>
    match r1 with
    | '-' :: r2 =>
      match parse2 r2 with
      | Option.none => Option.none
      | some (mo, r3) =>
        if mo < 1 || mo > 12 then Option.none
        else
          match r3 with
          | '-' :: r4 =>
            match parse2 r4 with
            | Option.none => Option.none
            | some (d, r5) =>
              if d < 1 || d > 31 then Option.none
              else
                let dateSec := daysFromCivil y mo d * 86400
                match r5 with
                | [] => some (dateSec, false)
                | _ :: r6 =>
                  match parse2 r6 with
                  | Option.none => Option.none
                  | some (hh, r7) =>
                    if hh > 23 then Option.none
                    else
                      match r7 with
                      | ':' :: r8 =>
                        match parse2 r8 with
                        | Option.none => Option.none
                        | some (mi, r9) =>
                          if mi > 59 then Option.none
                          else
                            match parseSeconds r9 with
                            | Option.none => Option.none
                            | some (ss, r10) =>
                              if ss > 59 then Option.none
                              else
                                match parseFraction r10 with
                                | Option.none => Option.none
                                | some r11 =>
                                  match parseOffset r11 with
                                  | Option.none => Option.none
                                  | some (off, r12) =>
                                    if !r12.isEmpty then Option.none
                                    else
                                      let naive := dateSec + hh * 3600 +
                                        mi * 60 + ss
                                      match off with
                                      | some o => some (naive - o, true)
                                      | Option.none => some (naive, false)
                      | _ => Option.none
          | _ => Option.none
    | _ => Option.none

/-- The `+0100 -> +01:00` fix-up at the top of `parse_dt`. -/
def fixOffsetColon (v : String) : String :=
  let cs := v.data
  let n := cs.length
  if n ≥ 5 &&
     (cs.getD (n - 5) ' ' == '+' || cs.getD (n - 5) ' ' == '-') &&
     cs.getD (n - 3) ' ' != ':' then
    String.mk (cs.take (n - 2) ++ [':'] ++ cs.drop (n - 2))
  else v

/-- `parse_dt(value)`: `None`/empty to `None`; otherwise strip, fix the
offset colon, try `fromisoformat`, then with space replaced by `T`;
naive results are placed in the Belgrade zone. -/
def parse_dt (value : Option String) : Option Int :=
  match value with
  | Option.none => Option.none
  | some s0 =>
    if s0 == "" then Option.none
    else
      let v := fixOffsetColon (pyStrip s0)
      let attempt :=
        match fromisoformat v with
        | some r => some r
        | Option.none =>
          fromisoformat
            (String.mk (v.data.map (fun c => if c = ' ' then 'T' else c)))
      match attempt with
      | Option.none => Option.none
      | some (t, aware) =>
        if aware then some t else some (t - BELGRADE_UTC_OFFSET_SEC)

/-- Python `v == "s"` for a JSON value. -/
def pyEqStr (v : PyVal) (s : String) : Bool :=
  match v with
  | PyVal.str t => t == s
  | _ => false

/-- `str | None` column content of a JSON value. -/
def pyOptStr : PyVal → Option String
  | PyVal.str s => some s
  | _ => Option.none

/-- `int | None` column content of a JSON value. -/
def pyToIntOpt : PyVal → Option Int
  | PyVal.int n => some n
  | _ => Option.none

def parseIntChars : List Char → Option Int
  | [] => Option.none
  | '-' :: rest =>
    (parseIntChars rest).map (fun n => -n)
  | cs =>
    if cs.all (fun c => c.isDigit) then
      some (Int.ofNat (cs.foldl (fun a c => a * 10 + (c.toNat - 48)) 0))
    else Option.none

/-- Python `int(v)` (raises on non-numeric input). -/
def pyToIntE (v : PyVal) : Except String Int :=
  match v with
  | PyVal.int n => Except.ok n
  | PyVal.bool b => Except.ok (if b then 1 else 0)
  | PyVal.str s =>
    match parseIntChars (pyStrip s).data with
    | some n => Except.ok n
    | Option.none =>
      Except.error ("invalid literal for int() with base 10: " ++
        squote ++ s ++ squote)
  | _ => Except.error "int() argument must be a string or a number"

def pyListItems : PyVal → List PyVal
  | PyVal.list xs => xs
  | _ => []

/-- `Decimal(str(v))` for the `Numeric(12, 2)` columns, in cents (digits
beyond two decimals do not occur in the booking payloads). -/
def pyCents : PyVal → Int
  | PyVal.int n => n * 100
  | PyVal.str s =>
    match splitDots (pyStrip s).data with
    | [a] => ((parseIntChars a).getD 0) * 100
    | [a, b] =>
      let ip := (parseIntChars a).getD 0
      let frac := (parseIntChars ((b ++ ['0', '0']).take 2)).getD 0
      if ip < 0 then ip * 100 - frac else ip * 100 + frac
    | _ => 0
  | _ => 0

/-- The integer multiplier `Decimal(str(amount))` (a count in the booking
payloads). -/
def pyAmountInt : PyVal → Int
  | PyVal.int n => n
  | PyVal.str s => (parseIntChars (pyStrip s).data).getD 1
  | _ => 1

/-- `sum_total_cost(services)` in cents. -/
def sum_total_cost (services : List PyVal) : Option Int :=
  let step := fun (acc : Int × Bool) (s : PyVal) =>
    let cost := dictGet (pyItems s) "cost_to_pay"
    if pyIsNone cost then acc
    else
      let amount := pyOr (dictGet (pyItems s) "amount") (PyVal.int 1)
      (acc.1 + pyCents cost * pyAmountInt amount, true)
  let r := services.foldl step (0, false)
  if r.2 then some r.1 else Option.none

def maxClientId (clients : List Client) : Nat :=
  clients.foldl (fun m c => max m c.id) 0

def maxRecordId (records : List Record) : Nat :=
  records.foldl (fun m r => max m r.id) 0

/-- `upsert_client(session, company_id, client_data)`: insert or update on
`(company_id, altegio_client_id)`, returning the row id. -/
def upsert_client (clients : List Client) (company_id : Int)
    (client_data : PyVal) : Except String (List Client × Nat) :=
  let g := dictGet (pyItems client_data)
  if pyIsNone (g "id") then
    Except.error "client.id missing in payload"
  else
    match pyToIntE (g "id") with
    | Except.error e => Except.error e
    | Except.ok acid =>
      let display_name := pyOr (g "display_name") (g "name")
      let phone := pyOptStr (g "phone")
      let dname := pyOptStr display_name
      let email := pyOptStr (g "email")
      match clients.find? (fun c => c.company_id == company_id &&
          c.altegio_client_id == acid) with
      | some c =>
        let clients' := clients.map (fun x =>
          if x.company_id == company_id && x.altegio_client_id == acid then
            { x with phone_e164 := phone, display_name := dname,
                     email := email }
          else x)
        Except.ok (clients', c.id)
      | Option.none =>
        let cid := maxClientId clients + 1
        Except.ok (clients ++
          [{ id := cid, company_id := company_id,
             altegio_client_id := acid, phone_e164 := phone,
             display_name := dname, email := email }], cid)

/-- `upsert_record(session, company_id, payload_event_status, record_data,
client_pk)`: insert or update on `(company_id, altegio_record_id)`. -/
def upsert_record (records : List Record) (company_id : Int)
    (payload_event_status : PyVal) (record_data : PyVal)
    (client_pk : Option Nat) : Except String (List Record × Nat) :=
  let g := dictGet (pyItems record_data)
  if pyIsNone (g "id") then
    Except.error "record.id missing in payload"
  else
    match pyToIntE (g "id") with
    | Except.error e => Except.error e
    | Except.ok arid =>
      let client_data := pyOr (g "client") (PyVal.dict [])
      let staff_data := pyOr (g "staff") (PyVal.dict [])
      let starts_at :=
        match parse_dt (pyOptStr (g "datetime")) with
        | some t => some t
        | Option.none => parse_dt (pyOptStr (g "date"))
      let duration_raw := pyOr (g "seance_length") (g "length")
      match (if pyIsNone duration_raw then Except.ok Option.none
             else (pyToIntE duration_raw).map some) with
      | Except.error e => Except.error e
      | Except.ok duration_sec =>
        let ends_at :=
          match starts_at, duration_sec with
          | some s, some du => if du != 0 then some (s + du) else Option.none
          | _, _ => Option.none
        let services := pyListItems (pyOr (g "services") (PyVal.list []))
        let total_cost := sum_total_cost services
        let is_deleted := pyTruthy (g "deleted") ||
          pyEqStr payload_event_status "delete"
        let last_change_at := parse_dt (pyOptStr (g "last_change_date"))
        let staff_id_raw :=
          pyOr (g "staff_id") (dictGet (pyItems staff_data) "id")
        match (if pyIsNone staff_id_raw then Except.ok Option.none
               else (pyToIntE staff_id_raw).map some) with
        | Except.error e => Except.error e
        | Except.ok staff_id =>
          let staff_name := pyOptStr (dictGet (pyItems staff_data) "name")
          let acid := pyToIntOpt (dictGet (pyItems client_data) "id")
          let fields := fun (r : Record) =>
            { r with
                client_id := client_pk,
                altegio_client_id := acid,
                staff_id := staff_id,
                staff_name := staff_name,
                starts_at := starts_at,
                ends_at := ends_at,
                duration_sec := duration_sec,
                comment := pyOptStr (g "comment"),
                short_link := pyOptStr (g "short_link"),
                confirmed := pyToIntOpt (g "confirmed"),
                attendance := pyToIntOpt (g "attendance"),
                visit_attendance := pyToIntOpt (g "visit_attendance"),
                is_deleted := is_deleted,
                total_cost := total_cost,
                last_change_at := last_change_at }
          match records.find? (fun r => r.company_id == company_id &&
              r.altegio_record_id == arid) with
          | some r =>
            let records' := records.map (fun x =>
              if x.company_id == company_id &&
                 x.altegio_record_id == arid then fields x
              else x)
            Except.ok (records', r.id)
          | Option.none =>
            let rid := maxRecordId records + 1
            Except.ok (records ++
              [fields { id := rid, company_id := company_id,
                        altegio_record_id := arid }], rid)

/-- `replace_record_services(session, record_pk, services)`. -/
def replace_record_services (svcs : List RecordService) (record_pk : Nat)
    (services : List PyVal) : List RecordService :=
  let kept := svcs.filter (fun s => !(s.record_id == record_pk))
  let rows := services.foldr
    (fun s acc =>
      let sid := dictGet (pyItems s) "id"
      match pyToIntOpt sid with
      | Option.none => acc
      | some sidn =>
        { record_id := record_pk, service_id := sidn,
          title := pyOptStr (dictGet (pyItems s) "title"),
          amount := pyToIntOpt (dictGet (pyItems s) "amount"),
          cost_to_pay :=
            (if pyIsNone (dictGet (pyItems s) "cost_to_pay") then Option.none
             else some (pyCents (dictGet (pyItems s) "cost_to_pay"))) } ::
          acc)
    ([] : List RecordService)
  kept ++ rows

/-- The tables the inbox worker touches. -/
structure InboxDb where
  events : List AltegioEvent := []
  clients : List Client := []
  records : List Record := []
  record_services : List RecordService := []
  jobs : List MessageJob := []
deriving Repr

/-- `str(NameError("name 'record_obj' is not defined"))`. -/
def nameErrorRecordObj : String :=
  "name " ++ squote ++ "record_obj" ++ squote ++ " is not defined"

/-- `handle_event(session, event)`: the returned string is the raised
exception's message (the session keeps the mutations made before the
raise, because `process_one_event` catches inside the transaction).

In the `record` branch the source calls
`plan_jobs_for_record_event(session, record=record_obj, client=client_obj,
event_status=event.event_status)`: the names `record_obj` and `client_obj`
are bound nowhere in scope (and the keywords do not match the planner's
signature `company_id / record_id / status`), so CPython raises a
`NameError` when the call's arguments are evaluated, before
`replace_record_services` runs and before any job is planned. -/
def handle_event (db : InboxDb) (event : AltegioEvent) :
    InboxDb × Option String :=
  let payload := pyItems (pyOr event.payload (PyVal.dict []))
  let company_id := pyOr event.company_id (dictGet payload "company_id")
  let resource := pyOr event.resource (dictGet payload "resource")
  let data := pyOr (dictGet payload "data") (PyVal.dict [])
  if !(pyTruthy company_id) then (db, some "company_id missing")
  else if pyEqStr resource "client" then
    match pyToIntE company_id with
    | Except.error e => (db, some e)
    | Except.ok cid =>
      match upsert_client db.clients cid data with
      | Except.error e => (db, some e)
      | Except.ok (clients', _) =>
        ({ db with clients := clients' }, Option.none)
  else if pyEqStr resource "record" then
    match pyToIntE company_id with
    | Except.error e => (db, some e)
    | Except.ok cid =>
      let client_data := pyOr (dictGet (pyItems data) "client")
        (PyVal.dict [])
      let step1 : Except String (InboxDb × Option Nat) :=
        if !(pyIsNone (dictGet (pyItems client_data) "id")) then
          match upsert_client db.clients cid client_data with
          | Except.error e => Except.error e
          | Except.ok (clients', pk) =>
            Except.ok ({ db with clients := clients' }, some pk)
        else Except.ok (db, Option.none)
      match step1 with
      | Except.error e => (db, some e)
      | Except.ok (db1, client_pk) =>
        match upsert_record db1.records cid event.event_status data
            client_pk with
        | Except.error e => (db1, some e)
        | Except.ok (records', _record_pk) =>
          ({ db1 with records := records' }, some nameErrorRecordObj)
  else (db, Option.none)

/-- `process_one_event(event_id)` at instant `now`: lock the event, run
`handle_event`, and mark the event `processed` or `failed` (the exception
is caught inside the transaction, so the pre-raise mutations commit). -/
def process_one_event (db : InboxDb) (event_id : Nat) (now : Int) :
    InboxDb :=
  match db.events.find? (fun e => e.id == event_id) with
  | Option.none => db
  | some event =>
    let r := handle_event db event
    match r.2 with
    | Option.none =>
      { r.1 with
          events := r.1.events.map (fun e =>
            if e.id == event.id then
              { e with status := "processed", processed_at := some now,
                       error := Option.none }
            else e) }
    | some msg =>
      { r.1 with
          events := r.1.events.map (fun e =>
            if e.id == event.id then
              { e with status := "failed", processed_at := some now,
                       error := some msg }
            else e) }

/-- Helper: dropping the original prefix of an append. -/
theorem drop_len_append {α : Type} (l1 l2 : List α) :
    (l1 ++ l2).drop l1.length = l2 := by
  simp

/-- Rows inserted by a clean flush are the pending rows, ids apart. -/
theorem insertAll_ok_append (pending : List MessageJob)
    (table t : List MessageJob)
    (h : insertAll table pending = Except.ok t) :
    ∃ tail, t = table ++ tail ∧
      tail.map stripId = pending.map stripId := by
  induction pending generalizing table with
  | nil =>
    refine ⟨[], ?_, rfl⟩
    have h2 : (Except.ok table : Except String (List MessageJob)) =
        Except.ok t := h
    injection h2 with h3
    simp [h3]
  | cons j rest ih =>
    simp only [insertAll] at h
    by_cases hdup :
        (table.any (fun x => x.dedupe_key == j.dedupe_key)) = true
    · rw [if_pos hdup] at h
      exact Except.noConfusion h
    · rw [if_neg hdup] at h
      obtain ⟨tail, ht, hmap⟩ := ih _ h
      refine ⟨{ j with id := maxJobId table + 1 } :: tail, ?_, ?_⟩
      · rw [ht]
        simp
      · simp only [List.map_cons]
        rw [hmap]
        rfl

/-- The reminder-row projection only reads columns `stripId` keeps. -/
theorem reminder_proj_of_stripId (l1 : List MessageJob)
    (l2 : List MessageJob) (h : l1.map stripId = l2.map stripId) :
    (l1.filter (fun j => REMINDER_JOB_TYPES.contains j.job_type)).map
      (fun j => (j.job_type, j.run_at)) =
    (l2.filter (fun j => REMINDER_JOB_TYPES.contains j.job_type)).map
      (fun j => (j.job_type, j.run_at)) := by
  induction l1 generalizing l2 with
  | nil =>
    cases l2 with
    | nil => rfl
    | cons b bs => simp at h
  | cons a as ih =>
    cases l2 with
    | nil => simp at h
    | cons b bs =>
      simp only [List.map_cons, List.cons.injEq] at h
      obtain ⟨hab, hrest⟩ := h
      have htype0 := congrArg MessageJob.job_type hab
      have htype : a.job_type = b.job_type := htype0
      have hrun0 := congrArg MessageJob.run_at hab
      have hrun : a.run_at = b.run_at := hrun0
      rw [List.filter_cons, List.filter_cons, htype]
      by_cases hp : (REMINDER_JOB_TYPES.contains b.job_type) = true
      · rw [if_pos hp, if_pos hp]
        simp only [List.map_cons]
        rw [htype, hrun, ih bs hrest]
      · rw [if_neg hp, if_neg hp]
        exact ih bs hrest

/-- C5: for a `create` or `update` transition on a booking with a start
time, planning emits (registers for insertion) exactly one `reminder_24h`
job at `startsAt − 24h` when `startsAt − now > 24h`; exactly one
`reminder_2h` job at `startsAt − 2h` when `2h < startsAt − now ≤ 24h` (in
particular at `startsAt − now = 24h` exactly); and no reminder job when
`startsAt − now ≤ 2h`.  Whenever the transaction's flush passes the
unique dedupe-key index, exactly those reminder rows are committed. -/
theorem c5_reminder_boundaries (jobs : List MessageJob)
    (records : List Record) (company_id : Int) (record_id : Nat)
    (status : String) (now : Int) (record : Record) (s : Int)
    (h1 : records.find? (fun r => r.company_id == company_id &&
        r.id == record_id) = some record)
    (h2 : record.starts_at = some s)
    (h3 : status = "create" ∨ status = "update") :
    let pr := plan_jobs_for_record_event jobs records company_id
      record_id status now
    let emitted := pr.2.filter
      (fun j => REMINDER_JOB_TYPES.contains j.job_type)
    (s - now > 24 * 3600 →
      emitted.map (fun j => (j.job_type, j.run_at)) =
        [("reminder_24h", s - 24 * 3600)])
    ∧ (2 * 3600 < s - now ∧ s - now ≤ 24 * 3600 →
      emitted.map (fun j => (j.job_type, j.run_at)) =
        [("reminder_2h", s - 2 * 3600)])
    ∧ (s - now ≤ 2 * 3600 → emitted = [])
    ∧ (∀ t, insertAll pr.1 pr.2 = Except.ok t →
        ((t.drop pr.1.length).filter
            (fun j => REMINDER_JOB_TYPES.contains j.job_type)).map
          (fun j => (j.job_type, j.run_at)) =
        emitted.map (fun j => (j.job_type, j.run_at))) := by
  intro pr emitted
  have hsys : SYSTEM_JOB_TYPES.isEmpty = false := by decide
  have hc4 : ∀ t, insertAll pr.1 pr.2 = Except.ok t →
      ((t.drop pr.1.length).filter
          (fun j => REMINDER_JOB_TYPES.contains j.job_type)).map
        (fun j => (j.job_type, j.run_at)) =
      emitted.map (fun j => (j.job_type, j.run_at)) := by
    intro t ht
    obtain ⟨tail, htt, hmap⟩ := insertAll_ok_append pr.2 pr.1 t ht
    rw [htt, drop_len_append]
    exact reminder_proj_of_stripId tail pr.2 hmap
  rcases h3 with h3 | h3 <;> subst h3 <;> refine ⟨?_, ?_, ?_, hc4⟩ <;>
    intro hcase
  · have hA : 86400 < s - now := by omega
    simp [pr, emitted, plan_jobs_for_record_event, h1, plan_reminders,
      plan_followups, h2, add_job, cancel_queued_jobs, hsys,
      List.filter, REMINDER_JOB_TYPES, hA]
  · have hA : ¬ (86400 < s - now) := by omega
    have hB : 7200 < s - now := by omega
    simp [pr, emitted, plan_jobs_for_record_event, h1, plan_reminders,
      plan_followups, h2, add_job, cancel_queued_jobs, hsys,
      List.filter, REMINDER_JOB_TYPES, hA, hB]
  · have hA : ¬ (86400 < s - now) := by omega
    have hB : ¬ (7200 < s - now) := by omega
    simp [pr, emitted, plan_jobs_for_record_event, h1, plan_reminders,
      plan_followups, h2, add_job, cancel_queued_jobs, hsys,
      List.filter, REMINDER_JOB_TYPES, hA, hB]
  · have hA : 86400 < s - now := by omega
    simp [pr, emitted, plan_jobs_for_record_event, h1, plan_reminders,
      plan_followups, h2, add_job, cancel_queued_jobs, hsys,
      List.filter, REMINDER_JOB_TYPES, hA]
  · have hA : ¬ (86400 < s - now) := by omega
    have hB : 7200 < s - now := by omega
    simp [pr, emitted, plan_jobs_for_record_event, h1, plan_reminders,
      plan_followups, h2, add_job, cancel_queued_jobs, hsys,
      List.filter, REMINDER_JOB_TYPES, hA, hB]
  · have hA : ¬ (86400 < s - now) := by omega
    have hB : ¬ (7200 < s - now) := by omega
    simp [pr, emitted, plan_jobs_for_record_event, h1, plan_reminders,
      plan_followups, h2, add_job, cancel_queued_jobs, hsys,
      List.filter, REMINDER_JOB_TYPES, hA, hB]

/-- Witness for C5 at a concrete booking 25 h away. -/
theorem c5_reminder_boundaries_witness :
    (([{ id := 1, company_id := 1, altegio_record_id := 111,
         client_id := some 10, starts_at := some 90000 }] :
        List Record).find? (fun r => r.company_id == 1 && r.id == 1) =
      some { id := 1, company_id := 1, altegio_record_id := 111,
             client_id := some 10, starts_at := some 90000 })
    ∧ (({ id := 1, company_id := 1, altegio_record_id := 111,
          client_id := some 10, starts_at := some 90000 } :
            Record).starts_at = some 90000)
    ∧ (("create" : String) = "create" ∨ ("create" : String) = "update")
    ∧ (let pr := plan_jobs_for_record_event []
         [{ id := 1, company_id := 1, altegio_record_id := 111,
            client_id := some 10, starts_at := some 90000 }] 1 1 "create" 0
       let emitted := pr.2.filter
         (fun j => REMINDER_JOB_TYPES.contains j.job_type)
       ((90000 : Int) - 0 > 24 * 3600 →
         emitted.map (fun j => (j.job_type, j.run_at)) =
           [("reminder_24h", (90000 : Int) - 24 * 3600)])
       ∧ (2 * 3600 < (90000 : Int) - 0 ∧ (90000 : Int) - 0 ≤ 24 * 3600 →
         emitted.map (fun j => (j.job_type, j.run_at)) =
           [("reminder_2h", (90000 : Int) - 2 * 3600)])
       ∧ ((90000 : Int) - 0 ≤ 2 * 3600 → emitted = [])
       ∧ (∀ t, insertAll pr.1 pr.2 = Except.ok t →
           ((t.drop pr.1.length).filter
               (fun j => REMINDER_JOB_TYPES.contains j.job_type)).map
             (fun j => (j.job_type, j.run_at)) =
           emitted.map (fun j => (j.job_type, j.run_at)))) :=
  ⟨by decide, by decide, Or.inl rfl,
   c5_reminder_boundaries []
     [{ id := 1, company_id := 1, altegio_record_id := 111,
        client_id := some 10, starts_at := some 90000 }] 1 1 "create" 0
     { id := 1, company_id := 1, altegio_record_id := 111,
       client_id := some 10, starts_at := some 90000 } 90000
     (by decide) (by decide) (Or.inl rfl)⟩

/-- C3 counterexample: two `update` transitions for the same booking
(one carrying no start time, so only the `record_updated` insert is
pending) at seconds 10 and 40 fall in the same 60-second bucket, yet both
transactions commit a `record_updated` job — the keys embed the raw
`run_at` instants rather than the bucket, so nothing is debounced. -/
theorem c3_counterexample :
    ((10 : Int) / UPDATE_DEBOUNCE_SEC = (40 : Int) / UPDATE_DEBOUNCE_SEC)
    ∧ (let records : List Record :=
         [{ id := 1, company_id := 1, altegio_record_id := 111,
            client_id := some 10 }]
       let s1 := plan_jobs_commit [] records 1 1 "update" 10
       let s2 := plan_jobs_commit s1.1 records 1 1 "update" 40
       s1.2 = Option.none ∧ s2.2 = Option.none ∧
       ((s2.1.filter (fun j => j.job_type == "record_updated")).map
           (fun j => j.dedupe_key) =
         ["record_updated:1:1:10", "record_updated:1:1:40"])) := by
  decide

/-- C3 amended: `_dedupe_key` does compute the bucketed
`record_updated:{recordId}:{floor(now / 60 s)}` key, but
`plan_jobs_for_record_event` enqueues through `add_job`, which registers
a plain insert whose dedupe key is `{jobType}:{companyId}:{recordId}:{runAt}`
regardless of any existing row. -/
theorem c3_dedupe_key_of_planner :
    (∀ (record_id : Nat) (run_at now : Int),
      dedupe_key "record_updated" record_id run_at (some now) =
        "record_updated:" ++ toString record_id ++ ":" ++
          toString (now / UPDATE_DEBOUNCE_SEC))
    ∧ (∀ (pending : List MessageJob) (company_id : Int) (record_id : Nat)
        (client_id : Option Nat) (job_type : String) (run_at : Int)
        (payload : List (String × String)),
      add_job pending company_id record_id client_id job_type run_at
          payload =
        pending ++
          [{ id := 0, company_id := company_id,
             record_id := some record_id, client_id := client_id,
             job_type := job_type, run_at := run_at, status := "queued",
             dedupe_key := job_type ++ ":" ++ toString company_id ++ ":" ++
               toString record_id ++ ":" ++ datetimeStr run_at,
             payload := payload }]) := by
  constructor
  · intro record_id run_at now
    simp [dedupe_key]
  · intro pending company_id record_id client_id job_type run_at payload
    simp [add_job]

/-- If a filter has exactly one hit, every hit is that element. -/
theorem eq_of_filter_singleton {α : Type} (l : List α) (p : α → Bool)
    (j : α) (h : l.filter p = [j]) :
    ∀ x ∈ l, p x = true → x = j := by
  intro x hx hpx
  have hmem : x ∈ l.filter p := List.mem_filter.mpr ⟨hx, hpx⟩
  rw [h] at hmem
  simpa using hmem

/-- A singleton filter forces `any` to hold. -/
theorem any_of_filter_singleton {α : Type} (l : List α) (p : α → Bool)
    (j : α) (h : l.filter p = [j]) : l.any p = true := by
  have hj : j ∈ l.filter p := by rw [h]; simp
  rcases List.mem_filter.mp hj with ⟨hmem, hp⟩
  exact List.any_eq_true.mpr ⟨j, hmem, hp⟩

/-- C4 amended: `enqueue_job` implements the conditional upsert exactly as
claimed — fresh key: insert a queued row; key held by a (unique) canceled
row: overwrite its business fields in place and requeue it, with no length
change; key held by any other row: the table is untouched.  The planner's
operative path, however, enqueues through `add_job` (see
`c3_dedupe_key_of_planner` and `c4_counterexample`). -/
theorem c4_enqueue_conditional_upsert (jobs : List MessageJob)
    (company_id : Int) (record_id : Nat) (client_id : Option Nat)
    (job_type : String) (run_at : Int) (now : Option Int) :
    let dk := dedupe_key job_type record_id run_at now
    let result := enqueue_job jobs company_id record_id client_id
      job_type run_at now
    (jobs.any (fun j => j.dedupe_key == dk) = false →
      result = jobs ++
        [{ id := maxJobId jobs + 1, company_id := company_id,
           record_id := some record_id, client_id := client_id,
           job_type := job_type, run_at := run_at, status := "queued",
           dedupe_key := dk }])
    ∧ (∀ j, jobs.filter (fun x => x.dedupe_key == dk) = [j] →
        j.status = "canceled" →
        result = jobs.map (fun x =>
          if x.dedupe_key == dk then
            { j with
                company_id := company_id,
                record_id := some record_id,
                client_id := client_id,
                job_type := job_type,
                run_at := run_at,
                status := "queued" }
          else x)
        ∧ result.length = jobs.length)
    ∧ (∀ j, jobs.filter (fun x => x.dedupe_key == dk) = [j] →
        j.status ≠ "canceled" →
        result = jobs) := by
  intro dk result
  refine ⟨?_, ?_, ?_⟩
  · intro hnone
    simp only [result, enqueue_job]
    rw [if_neg (by simp [hnone])]
  · intro j hfilter hcanc
    have hany := any_of_filter_singleton jobs _ j hfilter
    have hres : result = jobs.map (fun x =>
        if x.dedupe_key == dk && x.status == "canceled" then
          { x with
              company_id := company_id,
              record_id := some record_id,
              client_id := client_id,
              job_type := job_type,
              run_at := run_at,
              status := "queued" }
        else x) := by
      simp only [result, enqueue_job]
      rw [if_pos hany]
    constructor
    · rw [hres]
      apply List.map_congr_left
      intro x hx
      by_cases hk : x.dedupe_key == dk
      · have hxj : x = j :=
          eq_of_filter_singleton jobs _ j hfilter x hx hk
        subst hxj
        simp [hk, hcanc]
      · simp [hk]
    · rw [hres]; simp
  · intro j hfilter hncanc
    have hany := any_of_filter_singleton jobs _ j hfilter
    have hres : result = jobs.map (fun x =>
        if x.dedupe_key == dk && x.status == "canceled" then
          { x with
              company_id := company_id,
              record_id := some record_id,
              client_id := client_id,
              job_type := job_type,
              run_at := run_at,
              status := "queued" }
        else x) := by
      simp only [result, enqueue_job]
      rw [if_pos hany]
    rw [hres]
    have : ∀ x ∈ jobs, (if x.dedupe_key == dk && x.status == "canceled"
        then { x with
                 company_id := company_id,
                 record_id := some record_id,
                 client_id := client_id,
                 job_type := job_type,
                 run_at := run_at,
                 status := "queued" }
        else x) = x := by
      intro x hx
      by_cases hk : x.dedupe_key == dk
      · have hxj : x = j :=
          eq_of_filter_singleton jobs _ j hfilter x hx hk
        subst hxj
        have : (x.status == "canceled") = false := by
          simpa using hncanc
        simp [hk, this]
      · simp [hk]
    rw [List.map_congr_left this]; simp

/-- C4 counterexample: a canceled `reminder_24h` row holds exactly the
dedupe key the planner computes for a `create` of a booking 100 h away:
instead of reviving the canceled row, the plain `add_job` insert violates
the unique index on `message_jobs.dedupe_key`, the transaction raises
IntegrityError and rolls back, and the table — canceled row included — is
left exactly as it was. -/
theorem c4_counterexample :
    (let records : List Record :=
       [{ id := 1, company_id := 1, altegio_record_id := 111,
          client_id := some 10, starts_at := some 360000 }]
     let prior : List MessageJob :=
       [{ id := 1, company_id := 1, record_id := some 1,
          client_id := some 10, job_type := "reminder_24h",
          run_at := 273600, status := "canceled",
          dedupe_key := "reminder_24h:1:1:273600",
          payload := [("kind", "reminder_24h")] }]
     let res := plan_jobs_commit prior records 1 1 "create" 0
     (prior.map (fun j => (j.status, j.dedupe_key)) =
       [("canceled", "reminder_24h:1:1:273600")])
     ∧ ((plan_jobs_for_record_event prior records 1 1 "create" 0).2.map
         (fun j => j.dedupe_key)).contains "reminder_24h:1:1:273600" = true
     ∧ res.1 = prior
     ∧ res.2 = some ("IntegrityError: duplicate key value violates " ++
         "unique constraint on message_jobs.dedupe_key: " ++
         "reminder_24h:1:1:273600")) := by
  decide

/-- Witness for C4 at a concrete canceled row being revived. -/
theorem c4_enqueue_conditional_upsert_witness :
    let dk := dedupe_key "record_updated" 2 160 (some 130)
    let row : MessageJob :=
      { id := 1, company_id := 5, record_id := some 2,
        client_id := Option.none, job_type := "record_updated",
        run_at := 100, status := "canceled",
        dedupe_key := "record_updated:2:2" }
    ([row].filter (fun x => x.dedupe_key == dk) = [row])
    ∧ row.status = "canceled"
    ∧ (enqueue_job [row] 5 2 Option.none "record_updated" 160 (some 130) =
        [row].map (fun x =>
          if x.dedupe_key == dk then
            { row with
                company_id := 5,
                record_id := some 2,
                client_id := Option.none,
                job_type := "record_updated",
                run_at := 160,
                status := "queued" }
          else x)
      ∧ (enqueue_job [row] 5 2 Option.none "record_updated" 160
          (some 130)).length = [row].length) :=
  ⟨by decide, rfl,
   (c4_enqueue_conditional_upsert
      [{ id := 1, company_id := 5, record_id := some 2,
         client_id := Option.none, job_type := "record_updated",
         run_at := 100, status := "canceled",
         dedupe_key := "record_updated:2:2" }]
      5 2 Option.none "record_updated" 160 (some 130)).2.1
     { id := 1, company_id := 5, record_id := some 2,
       client_id := Option.none, job_type := "record_updated",
       run_at := 100, status := "canceled",
       dedupe_key := "record_updated:2:2" }
     (by decide) rfl⟩

set_option maxRecDepth 100000 in
/-- C6 counterexample: for a payload missing the main fields, the stored
fingerprint is not the SHA-256 of `"fallback:" + canonical-JSON(payload)`
(the source hashes `"fallback:" + sha256_hex(canonical-JSON(payload))`). -/
theorem c6_counterexample :
    make_dedupe_key [("resource", PyVal.str "record")] [] ≠
      sha256_hex ("fallback:" ++
        pyCanonJson (PyVal.dict [("resource", PyVal.str "record")])) := by
  decide

/-- C6 amended: with all of `companyId`, `resource`, `resourceId` and
`transition` present, the fingerprint is the SHA-256 hex of
`"{companyId}:{resource}:{resourceId}:{transition}:{data.lastChangeDate}:
{secret}"`; otherwise it is the SHA-256 hex of `"fallback:"` followed by
the SHA-256 hex of the canonical JSON of the payload (a hash of the
hash, not of the canonical JSON itself). -/
theorem c6_fingerprint_formula (payload query : PyDict) :
    let company_id := dictGet payload "company_id"
    let resource := pyOr (dictGet payload "resource")
      (dictGet payload "type")
    let resource_id := dictGet payload "resource_id"
    let event_status := dictGet payload "status"
    let last_change := dictGet
      (pyItems (pyOr (dictGet payload "data") (PyVal.dict [])))
      "last_change_date"
    let secret := pyOr (dictGet query "secret") (dictGet query "userGuid")
    ((pyIsNone company_id || pyIsNone resource || pyIsNone resource_id ||
        pyIsNone event_status) = false →
      make_dedupe_key payload query =
        sha256_hex (pyStr company_id ++ ":" ++ pyStr resource ++ ":" ++
          pyStr resource_id ++ ":" ++ pyStr event_status ++ ":" ++
          pyStr last_change ++ ":" ++ pyStr secret))
    ∧ ((pyIsNone company_id || pyIsNone resource ||
        pyIsNone resource_id || pyIsNone event_status) = true →
      make_dedupe_key payload query =
        sha256_hex ("fallback:" ++
          sha256_hex (pyCanonJson (PyVal.dict payload)))) := by
  refine ⟨?_, ?_⟩ <;> intro h <;> simp only [make_dedupe_key] <;> simp [h]

/-- Witness for C6 at a concrete payload with all main fields present. -/
theorem c6_fingerprint_formula_witness :
    let payload : PyDict :=
      [("company_id", PyVal.int 1), ("resource", PyVal.str "record"),
       ("resource_id", PyVal.int 22), ("status", PyVal.str "create"),
       ("data", PyVal.dict [("last_change_date",
         PyVal.str "2026-01-01")])]
    let query : PyDict := [("secret", PyVal.str "s3cr3t")]
    ((pyIsNone (dictGet payload "company_id") ||
      pyIsNone (pyOr (dictGet payload "resource")
        (dictGet payload "type")) ||
      pyIsNone (dictGet payload "resource_id") ||
      pyIsNone (dictGet payload "status")) = false)
    ∧ make_dedupe_key payload query =
        sha256_hex "1:record:22:create:2026-01-01:s3cr3t" := by
  intro payload query
  refine ⟨by decide, ?_⟩
  exact (c6_fingerprint_formula payload query).1 (by decide)

/-- `pyEqStr v s` forces `v` to be exactly the string `s`. -/
theorem pyEqStr_eq (v : PyVal) (s : String) (h : pyEqStr v s = true) :
    v = PyVal.str s := by
  cases v <;> simp [pyEqStr] at h
  simp [h]

/-- `find?` commutes with a map that leaves the predicate unchanged. -/
theorem find?_map_of_pred {α : Type} (l : List α) (g : α → α)
    (p : α → Bool) (hp : ∀ e, p (g e) = p e) :
    (l.map g).find? p = (l.find? p).map g := by
  induction l with
  | nil => simp
  | cons x xs ih =>
    by_cases hx : p x
    · simp [List.find?_cons, hp, hx]
    · simp only [List.map_cons, List.find?_cons, hp, hx]
      simpa [hx] using ih

/-- C2 (code bug): processing any received event whose resource is
`record` with a company id present never ends `processed`: the planner
invocation in `handle_event` names the unbound `record_obj` / `client_obj`
and raises, so the event is always marked `failed` with `processedAt` set
and an error recorded, and no job is ever planned. -/
theorem c2_record_event_marked_failed (db : InboxDb)
    (event : AltegioEvent) (event_id : Nat) (now : Int)
    (hfind : db.events.find? (fun e => e.id == event_id) = some event)
    (hres : pyEqStr (pyOr event.resource
        (dictGet (pyItems (pyOr event.payload (PyVal.dict [])))
          "resource")) "record" = true)
    (hcid : pyTruthy (pyOr event.company_id
        (dictGet (pyItems (pyOr event.payload (PyVal.dict [])))
          "company_id")) = true) :
    let result := process_one_event db event_id now
    (∃ e', result.events.find? (fun e => e.id == event_id) = some e' ∧
      e'.status = "failed" ∧ e'.processed_at = some now ∧
      e'.error.isSome = true)
    ∧ result.jobs = db.jobs := by
  intro result
  have hstep : (handle_event db event).2.isSome = true ∧
      (handle_event db event).1.jobs = db.jobs ∧
      (handle_event db event).1.events = db.events := by
    have hrv := pyEqStr_eq _ _ hres
    simp only [handle_event, hrv, hcid]
    rw [hrv] at hres
    simp only [Bool.not_true, Bool.false_eq_true, if_false]
    have hclient : pyEqStr (PyVal.str "record") "client" = false := by
      decide
    have hrecord : pyEqStr (PyVal.str "record") "record" = true := by
      decide
    simp only [hclient, hrecord, Bool.false_eq_true, if_false, if_true]
    split
    · simp
    · rename_i acid heq0
      split
      · simp
      · rename_i db1 client_pk heq1
        have hdb1 : db1.jobs = db.jobs ∧ db1.events = db.events := by
          split at heq1
          · split at heq1
            · simp at heq1
            · rename_i clients' pk heq2
              injection heq1 with h1
              have := Prod.mk.injEq .. ▸ h1
              simp only [Prod.mk.injEq] at h1
              obtain ⟨h2, _⟩ := h1
              rw [← h2]
              exact ⟨rfl, rfl⟩
          · injection heq1 with h1
            simp only [Prod.mk.injEq] at h1
            obtain ⟨h2, _⟩ := h1
            rw [← h2]
            exact ⟨rfl, rfl⟩
        split
        · simpa using hdb1
        · simpa using hdb1
  obtain ⟨hsome, hjobs, hevents⟩ := hstep
  obtain ⟨msg, hmsg⟩ := Option.isSome_iff_exists.mp hsome
  have hid : (event.id == event_id) = true := by
    have := List.find?_some hfind
    simpa using this
  constructor
  · simp only [result, process_one_event, hfind, hmsg]
    rw [hevents]
    rw [find?_map_of_pred db.events _ (fun e => e.id == event_id)
      (by intro e; by_cases h : e.id == event.id <;> simp [h])]
    rw [hfind]
    refine ⟨_, rfl, ?_⟩
    simp [hid]
  · simp only [result, process_one_event, hfind, hmsg]
    simpa using hjobs

/-- Witness for C2 at a concrete well-formed booking event: the event is
left `failed` with the NameError message, not `processed`. -/
theorem c2_record_event_marked_failed_witness :
    let ev : AltegioEvent :=
      { id := 1, dedupe_key := "fp1", company_id := PyVal.int 1,
        resource := PyVal.str "record", resource_id := PyVal.int 111,
        event_status := PyVal.str "create",
        payload := PyVal.dict
          [("company_id", PyVal.int 1), ("resource", PyVal.str "record"),
           ("data", PyVal.dict [("id", PyVal.int 111)])] }
    let db : InboxDb := { events := [ev] }
    (db.events.find? (fun e => e.id == 1) = some ev)
    ∧ (pyEqStr (pyOr ev.resource
        (dictGet (pyItems (pyOr ev.payload (PyVal.dict [])))
          "resource")) "record" = true)
    ∧ (pyTruthy (pyOr ev.company_id
        (dictGet (pyItems (pyOr ev.payload (PyVal.dict [])))
          "company_id")) = true)
    ∧ (let result := process_one_event db 1 77
       (∃ e', result.events.find? (fun e => e.id == 1) = some e' ∧
         e'.status = "failed" ∧ e'.processed_at = some 77 ∧
         e'.error.isSome = true)
       ∧ result.jobs = db.jobs)
    ∧ ((process_one_event db 1 77).events.map
        (fun e => (e.status, e.error, e.processed_at))) =
      [("failed", some nameErrorRecordObj, some 77)] := by
  intro ev db
  exact ⟨rfl, rfl, rfl,
    c2_record_event_marked_failed db ev 1 77 rfl rfl rfl, rfl⟩

/-- Success (`sent|delivered|read`) outbox rows recorded for a job. -/
def successOutboxCount (outbox : List OutboxMessage) (jid : Nat) : Nat :=
  (outbox.filter (fun o => o.job_id == some jid &&
    SUCCESS_OUTBOX_STATUSES.contains o.status)).length

theorem foldl_latest_isSome (l : List OutboxMessage) (b : OutboxMessage) :
    (l.foldl
      (fun acc o =>
        match acc with
        | Option.none => some o
        | some c => if o.id > c.id then some o else some c)
      (some b)).isSome = true := by
  induction l generalizing b with
  | nil => rfl
  | cons x xs ih =>
    simp only [List.foldl_cons]
    split <;> exact ih _

theorem latestById_eq_none_iff (l : List OutboxMessage) :
    latestById l = Option.none ↔ l = [] := by
  cases l with
  | nil => simp [latestById]
  | cons x xs =>
    simp only [latestById, List.foldl_cons]
    constructor
    · intro h
      have := foldl_latest_isSome xs x
      rw [h] at this
      simp at this
    · intro h; simp at h

/-- When no success row exists for a job, its success count is zero. -/
theorem successCount_zero_of_find_none (outbox : List OutboxMessage)
    (jid : Nat) (h : find_success_outbox outbox jid = Option.none) :
    successOutboxCount outbox jid = 0 := by
  unfold find_success_outbox at h
  rw [latestById_eq_none_iff] at h
  simp only [successOutboxCount]
  rw [h]
  rfl

theorem successCount_append (l l2 : List OutboxMessage) (jid : Nat) :
    successOutboxCount (l ++ l2) jid =
      successOutboxCount l jid + successOutboxCount l2 jid := by
  simp [successOutboxCount, List.filter_append]

/-- C1: `process_job_in_session` keeps at most one success outbox row per
job, and when a success row already exists for the locked job, it marks
the job `done` with `lockedAt` and `lastError` cleared, touches nothing
else, and does not call the provider. -/
theorem c1_outbox_exactly_once (db : WorkerDb) (job_id : Nat)
    (env : WorkerEnv) (send_result : Except String String) (now : Int)
    (job : MessageJob)
    (hfind : db.jobs.find? (fun j => j.id == job_id) = some job) :
    let r := process_job_in_session db job_id env send_result now
    (∀ jid : Nat, successOutboxCount db.outbox jid ≤ 1 →
      successOutboxCount r.1.outbox jid ≤ 1)
    ∧ ((find_success_outbox db.outbox job.id).isSome = true →
      r.1.jobs = updateJob db.jobs
        { job with
            status := "done", locked_at := Option.none,
            last_error := Option.none }
      ∧ r.1.outbox = db.outbox ∧ r.1.rate_limits = db.rate_limits
      ∧ r.2.safe_send_called = false) := by
  intro r
  have houtbox : r.1.outbox = db.outbox ∨
      (successOutboxCount db.outbox job.id = 0 ∧
       ∃ out : OutboxMessage, r.1.outbox = db.outbox ++ [out] ∧
         out.job_id = some job.id ∧
         (out.status = "failed" ∨ out.status = "sent")) := by
    cases hcase : find_success_outbox db.outbox job.id with
    | some o =>
      left
      simp only [r, process_job_in_session, hfind, hcase]
    | none =>
      have hzero := successCount_zero_of_find_none _ _ hcase
      simp only [r, process_job_in_session, hfind, hcase]
      repeat' first
        | (left; rfl)
        | (right; exact ⟨hzero, _, rfl, rfl, Or.inl rfl⟩)
        | (right; exact ⟨hzero, _, rfl, rfl, Or.inr rfl⟩)
        | split
  constructor
  · intro jid hle
    rcases houtbox with heq | ⟨hzero, out, heq, hjid, hst⟩
    · rw [heq]; exact hle
    · rw [heq, successCount_append]
      rcases hst with hs | hs
      · have h0 : successOutboxCount [out] jid = 0 := by
          simp [successOutboxCount, List.filter, hs,
            SUCCESS_OUTBOX_STATUSES]
        omega
      · by_cases hj : jid = job.id
        · have h1 : successOutboxCount [out] jid = 1 := by
            simp [successOutboxCount, List.filter, hs, hjid, hj,
              SUCCESS_OUTBOX_STATUSES]
          have hz : successOutboxCount db.outbox jid = 0 := by
            rw [hj]; exact hzero
          omega
        · have h0 : successOutboxCount [out] jid = 0 := by
            have hb : (job.id == jid) = false := by simp; omega
            simp [successOutboxCount, List.filter, hs, hjid, hb,
              SUCCESS_OUTBOX_STATUSES]
          omega
  · intro hsome
    obtain ⟨o, ho⟩ := Option.isSome_iff_exists.mp hsome
    refine ⟨?_, ?_, ?_, ?_⟩ <;>
      simp only [r, process_job_in_session, hfind, ho]

/-- Witness for C1 at a concrete job that already has a sent outbox row. -/
theorem c1_outbox_exactly_once_witness :
    let job1 : MessageJob :=
      { id := 1, company_id := 758285, job_type := "record_created",
        run_at := 0, status := "processing", locked_at := some 0,
        dedupe_key := "k1" }
    let out1 : OutboxMessage :=
      { id := 1, company_id := 758285, job_id := some 1,
        phone_e164 := "+491234", template_code := "record_created",
        body := "b", status := "sent", scheduled_at := 0 }
    let db : WorkerDb := { jobs := [job1], outbox := [out1] }
    (db.jobs.find? (fun j => j.id == 1) = some job1)
    ∧ (find_success_outbox db.outbox job1.id).isSome = true
    ∧ (let r := process_job_in_session db 1 {} (Except.ok "m") 50
       (∀ jid : Nat, successOutboxCount db.outbox jid ≤ 1 →
         successOutboxCount r.1.outbox jid ≤ 1)
       ∧ ((find_success_outbox db.outbox job1.id).isSome = true →
         r.1.jobs = updateJob db.jobs
           { job1 with
               status := "done", locked_at := Option.none,
               last_error := Option.none }
         ∧ r.1.outbox = db.outbox ∧ r.1.rate_limits = db.rate_limits
         ∧ r.2.safe_send_called = false)) := by
  intro job1 out1 db
  exact ⟨rfl, by decide,
    c1_outbox_exactly_once db 1 {} (Except.ok "m") 50 job1 rfl⟩

/-- C7: a send failure not recognized as token-expired records a failed
outbox row; then, with `attempts` already incremented for this try, the
job is failed outright (no retry, `run_at` untouched) when
`attempts ≥ maxAttempts`, and otherwise requeued at
`now + min(30 s · 2^(attempts − 1), 15 min)` with the lock cleared. -/
theorem c7_send_failure_backoff (db : WorkerDb) (job_id : Nat)
    (env : WorkerEnv) (send_result : Except String String) (now : Int)
    (job : MessageJob) (p body lang : String) (sender_id : Nat)
    (mid : Option String) (err : String)
    (hfind : db.jobs.find? (fun j => j.id == job_id) = some job)
    (hsucc : find_success_outbox db.outbox job.id = Option.none)
    (hatt : job.attempts < job.max_attempts)
    (hpast : record_is_in_past (load_record db.records job) now = false)
    (hphone : (load_client db.clients job
        (load_record db.records job)).bind (fun c => c.phone_e164) =
        some p)
    (hne : (p == "") = false)
    (hgate : (apply_rate_limit db.rate_limits p now).2 = Option.none)
    (hrender : render_message
        { db with rate_limits := (apply_rate_limit db.rate_limits p now).1 }
        job.company_id job.job_type (load_record db.records job)
        (load_client db.clients job (load_record db.records job)) =
        Except.ok (body, sender_id, lang))
    (hsend : safe_send env send_result = (mid, some err))
    (htok : is_token_expired_error err = false) :
    let r := process_job_in_session db job_id env send_result now
    (∃ out : OutboxMessage, r.1.outbox = db.outbox ++ [out] ∧
      out.status = "failed" ∧ out.error = some err ∧
      out.job_id = some job.id)
    ∧ (job.attempts + 1 ≥ job.max_attempts →
        r.1.jobs = updateJob db.jobs
          { job with
              attempts := job.attempts + 1, status := "failed",
              locked_at := Option.none,
              last_error := some ("Send failed: " ++ err) })
    ∧ (job.attempts + 1 < job.max_attempts →
        r.1.jobs = updateJob db.jobs
          { job with
              attempts := job.attempts + 1, status := "queued",
              locked_at := Option.none,
              last_error := some ("Send failed: " ++ err),
              run_at := now +
                min (30 * 2 ^ (job.attempts + 1 - 1)) (15 * 60) }) := by
  intro r
  have hnot : ¬ job.attempts ≥ job.max_attempts := by omega
  refine ⟨?_, ?_, ?_⟩
  · simp only [r, process_job_in_session, hfind, hsucc]
    rw [if_neg hnot]
    simp only [hpast, hphone, hne, hgate, hrender, hsend, htok,
      Bool.false_eq_true, if_false]
    split
    · exact ⟨_, rfl, rfl, rfl, rfl⟩
    · exact ⟨_, rfl, rfl, rfl, rfl⟩
  · intro hge
    simp only [r, process_job_in_session, hfind, hsucc]
    rw [if_neg hnot]
    simp only [hpast, hphone, hne, hgate, hrender, hsend, htok,
      Bool.false_eq_true, if_false]
    rw [if_pos hge]
  · intro hlt
    have hnge : ¬ job.attempts + 1 ≥ job.max_attempts := by omega
    simp only [r, process_job_in_session, hfind, hsucc]
    rw [if_neg hnot]
    simp only [hpast, hphone, hne, hgate, hrender, hsend, htok,
      Bool.false_eq_true, if_false]
    rw [if_neg hnge]
    rfl

/-- Witness for C7: a concrete job on its final attempt fails to send and
is marked failed with a failed outbox row recorded. -/
theorem c7_send_failure_backoff_witness :
    let job7 : MessageJob :=
      { id := 1, company_id := 758285, client_id := some 1,
        job_type := "record_updated", run_at := 0,
        status := "processing", attempts := 4, max_attempts := 5,
        locked_at := some 0, dedupe_key := "k7" }
    let client1 : Client :=
      { id := 1, company_id := 758285, altegio_client_id := 5,
        phone_e164 := some "+491234", display_name := some "Anna" }
    let tmpl : MessageTemplate :=
      { id := 1, company_id := 758285, code := "record_updated",
        language := "de", body := "Hi \x7bclient_name\x7d" }
    let sender : WhatsAppSender :=
      { id := 7, company_id := 758285, sender_code := "default",
        phone_number_id := "pn" }
    let db : WorkerDb := { jobs := [job7], clients := [client1],
                           templates := [tmpl], senders := [sender] }
    (db.jobs.find? (fun j => j.id == 1) = some job7)
    ∧ find_success_outbox db.outbox job7.id = Option.none
    ∧ job7.attempts < job7.max_attempts
    ∧ record_is_in_past (load_record db.records job7) 50 = false
    ∧ (load_client db.clients job7
        (load_record db.records job7)).bind (fun c => c.phone_e164) =
        some "+491234"
    ∧ (("+491234" == "") = false)
    ∧ (apply_rate_limit db.rate_limits "+491234" 50).2 = Option.none
    ∧ render_message
        { db with
            rate_limits := (apply_rate_limit db.rate_limits "+491234" 50).1 }
        job7.company_id job7.job_type (load_record db.records job7)
        (load_client db.clients job7 (load_record db.records job7)) =
        Except.ok ("Hi Anna", 7, "de")
    ∧ safe_send {} (Except.error "boom") = (Option.none, some "boom")
    ∧ is_token_expired_error "boom" = false
    ∧ (let r := process_job_in_session db 1 {} (Except.error "boom") 50
       (∃ out : OutboxMessage, r.1.outbox = db.outbox ++ [out] ∧
         out.status = "failed" ∧ out.error = some "boom" ∧
         out.job_id = some job7.id)
       ∧ (job7.attempts + 1 ≥ job7.max_attempts →
           r.1.jobs = updateJob db.jobs
             { job7 with
                 attempts := job7.attempts + 1, status := "failed",
                 locked_at := Option.none,
                 last_error := some ("Send failed: " ++ "boom") })
       ∧ (job7.attempts + 1 < job7.max_attempts →
           r.1.jobs = updateJob db.jobs
             { job7 with
                 attempts := job7.attempts + 1, status := "queued",
                 locked_at := Option.none,
                 last_error := some ("Send failed: " ++ "boom"),
                 run_at := 50 +
                   min (30 * 2 ^ (job7.attempts + 1 - 1)) (15 * 60) })) := by
  intro job7 client1 tmpl sender db
  refine ⟨rfl, rfl, by decide, rfl, rfl, rfl, rfl, rfl, rfl, by decide,
    ?_⟩
  exact c7_send_failure_backoff db 1 {} (Except.error "boom") 50 job7
    "+491234" "Hi Anna" "de" 7 Option.none "boom" rfl rfl (by decide)
    rfl rfl rfl rfl rfl rfl (by decide)

theorem any_eq_false_of_find?_none {α : Type} (l : List α) (p : α → Bool)
    (h : l.find? p = Option.none) : l.any p = false := by
  rw [List.find?_eq_none] at h
  simp only [List.any_eq_false]
  intro x hx
  simpa using h x hx

theorem any_eq_true_of_find?_some {α : Type} (l : List α) (p : α → Bool)
    (j : α) (h : l.find? p = some j) : l.any p = true :=
  List.any_eq_true.mpr ⟨j, List.mem_of_find?_eq_some h, List.find?_some h⟩

/-- The row lookup in `apply_rate_limit` after the gate is advanced. -/
theorem apply_rate_limit_spec (rls : List ContactRateLimit) (p : String)
    (now : Int) :
    let rl := apply_rate_limit rls p now
    (rls.find? (fun x => x.phone_e164 == p) = Option.none →
      rl.2 = Option.none)
    ∧ (∀ rl0, rls.find? (fun x => x.phone_e164 == p) = some rl0 →
      rl.2 = if rl0.next_allowed_at > now then some rl0.next_allowed_at
             else Option.none)
    ∧ (rl.2 = Option.none →
      rl.1.find? (fun x => x.phone_e164 == p) =
        some { phone_e164 := p,
               next_allowed_at := now + MIN_SECONDS_BETWEEN_MESSAGES }) := by
  intro rl
  have hpres : ∀ e : ContactRateLimit,
      ((if e.phone_e164 == p then
          { e with next_allowed_at := now + MIN_SECONDS_BETWEEN_MESSAGES }
        else e).phone_e164 == p) = (e.phone_e164 == p) := by
    intro e
    by_cases h : e.phone_e164 == p <;> simp [h]
  refine ⟨?_, ?_, ?_⟩
  · intro hnone
    have hany := any_eq_false_of_find?_none _ _ hnone
    have hlt : ¬ ((now : Int) > now) := by omega
    simp only [rl, apply_rate_limit, hany, Bool.false_eq_true, if_false]
    rw [List.find?_append, hnone]
    simp [List.find?, hlt]
  · intro rl0 hsome
    have hany := any_eq_true_of_find?_some _ _ _ hsome
    simp only [rl, apply_rate_limit, hany, if_true, hsome]
    split <;> rename_i hgt
    · simp [hgt]
    · simp [hgt]
  · intro hnone2
    cases hfind : rls.find? (fun x => x.phone_e164 == p) with
    | none =>
      have hany := any_eq_false_of_find?_none _ _ hfind
      have hlt : ¬ ((now : Int) > now) := by omega
      simp only [rl, apply_rate_limit, hany, Bool.false_eq_true, if_false]
      rw [List.find?_append, hfind]
      simp only [Option.none_or, List.find?, beq_self_eq_true]
      simp only [hlt, if_false]
      rw [find?_map_of_pred _ _ _ hpres, List.find?_append, hfind]
      simp [List.find?]
    | some rl0 =>
      have hany := any_eq_true_of_find?_some _ _ _ hfind
      have hbeq : rl0.phone_e164 = p := by
        have := List.find?_some hfind
        simpa using this
      by_cases hgt : rl0.next_allowed_at > now
      · exfalso
        simp only [rl, apply_rate_limit, hany, if_true, hfind, hgt]
          at hnone2
        simp at hnone2
      · simp only [rl, apply_rate_limit, hany, if_true, hfind, hgt,
          if_false]
        rw [find?_map_of_pred _ _ _ hpres, hfind]
        simp [hbeq]

/-- C8: a job whose recipient phone is gated (`nextAllowedAt > now`) is
requeued to the gate instant with its lock cleared and neither a provider
call nor an outbox write happens; a phone that is not gated — including
one with no prior rate-limit row — has its gate advanced to `now + 30 s`
before the send proceeds. -/
theorem c8_rate_limit_admission (db : WorkerDb) (job_id : Nat)
    (env : WorkerEnv) (send_result : Except String String) (now : Int)
    (job : MessageJob) (p : String)
    (hfind : db.jobs.find? (fun j => j.id == job_id) = some job)
    (hsucc : find_success_outbox db.outbox job.id = Option.none)
    (hatt : job.attempts < job.max_attempts)
    (hpast : record_is_in_past (load_record db.records job) now = false)
    (hphone : (load_client db.clients job
        (load_record db.records job)).bind (fun c => c.phone_e164) =
        some p)
    (hne : (p == "") = false) :
    let rl := apply_rate_limit db.rate_limits p now
    let r := process_job_in_session db job_id env send_result now
    (db.rate_limits.find? (fun x => x.phone_e164 == p) = Option.none →
      rl.2 = Option.none)
    ∧ (∀ rl0, db.rate_limits.find? (fun x => x.phone_e164 == p) =
        some rl0 →
      rl.2 = if rl0.next_allowed_at > now then some rl0.next_allowed_at
             else Option.none)
    ∧ (∀ t, rl.2 = some t →
      r.1.jobs = updateJob db.jobs
        { job with
            status := "queued", locked_at := Option.none, run_at := t }
      ∧ r.1.outbox = db.outbox ∧ r.2.safe_send_called = false
      ∧ r.1.rate_limits = rl.1)
    ∧ (rl.2 = Option.none →
      rl.1.find? (fun x => x.phone_e164 == p) =
        some { phone_e164 := p,
               next_allowed_at := now + MIN_SECONDS_BETWEEN_MESSAGES }
      ∧ r.1.rate_limits = rl.1) := by
  intro rl r
  have hnot : ¬ job.attempts ≥ job.max_attempts := by omega
  obtain ⟨hs1, hs2, hs3⟩ := apply_rate_limit_spec db.rate_limits p now
  refine ⟨hs1, hs2, ?_, ?_⟩
  · intro t ht
    simp only [r, process_job_in_session, hfind, hsucc]
    rw [if_neg hnot]
    simp only [hpast, hphone, hne, Bool.false_eq_true, if_false]
    simp only [rl] at ht
    simp only [ht]
    repeat' first
      | trivial
      | constructor
  · intro hno
    refine ⟨hs3 hno, ?_⟩
    simp only [r, process_job_in_session, hfind, hsucc]
    rw [if_neg hnot]
    simp only [hpast, hphone, hne, Bool.false_eq_true, if_false]
    simp only [rl] at hno
    simp only [hno]
    repeat' first
      | rfl
      | split

/-- Witness for C8 at a concrete job whose phone is gated until t=100. -/
theorem c8_rate_limit_admission_witness :
    let job8 : MessageJob :=
      { id := 1, company_id := 758285, client_id := some 1,
        job_type := "record_updated", run_at := 0,
        status := "processing", attempts := 0, max_attempts := 5,
        locked_at := some 0, dedupe_key := "k8" }
    let db : WorkerDb :=
      { jobs := [job8],
        clients := [{ id := 1, company_id := 758285,
                      altegio_client_id := 5,
                      phone_e164 := some "+491234" }],
        rate_limits := [{ phone_e164 := "+491234",
                          next_allowed_at := 100 }] }
    (db.jobs.find? (fun j => j.id == 1) = some job8)
    ∧ find_success_outbox db.outbox job8.id = Option.none
    ∧ job8.attempts < job8.max_attempts
    ∧ record_is_in_past (load_record db.records job8) 50 = false
    ∧ (load_client db.clients job8
        (load_record db.records job8)).bind (fun c => c.phone_e164) =
        some "+491234"
    ∧ (("+491234" == "") = false)
    ∧ (let rl := apply_rate_limit db.rate_limits "+491234" 50
       let r := process_job_in_session db 1 {} (Except.ok "m") 50
       (db.rate_limits.find? (fun x => x.phone_e164 == "+491234") =
          Option.none → rl.2 = Option.none)
       ∧ (∀ rl0, db.rate_limits.find?
            (fun x => x.phone_e164 == "+491234") = some rl0 →
          rl.2 = if rl0.next_allowed_at > 50 then
                   some rl0.next_allowed_at
                 else Option.none)
       ∧ (∀ t, rl.2 = some t →
          r.1.jobs = updateJob db.jobs
            { job8 with
                status := "queued", locked_at := Option.none,
                run_at := t }
          ∧ r.1.outbox = db.outbox ∧ r.2.safe_send_called = false
          ∧ r.1.rate_limits = rl.1)
       ∧ (rl.2 = Option.none →
          rl.1.find? (fun x => x.phone_e164 == "+491234") =
            some { phone_e164 := "+491234",
                   next_allowed_at := 50 + MIN_SECONDS_BETWEEN_MESSAGES }
          ∧ r.1.rate_limits = rl.1)) := by
  intro job8 db
  refine ⟨rfl, rfl, by decide, rfl, rfl, rfl, ?_⟩
  exact c8_rate_limit_admission db 1 {} (Except.ok "m") 50 job8
    "+491234" rfl rfl (by decide) rfl rfl rfl

/-- C10: `safe_send` is total — it returns the message id when the
provider returns, the error message when the provider raises, and when
real sending is disabled for the `meta_cloud` provider it returns
`(none, "Real send disabled")` without invoking the provider; such an
attempt records a failed outbox row and backs off until `maxAttempts`. -/
theorem c10_safe_send_disabled_gate (db : WorkerDb) (job_id : Nat)
    (env : WorkerEnv) (send_result : Except String String) (now : Int)
    (job : MessageJob) (p body lang : String) (sender_id : Nat)
    (hfind : db.jobs.find? (fun j => j.id == job_id) = some job)
    (hsucc : find_success_outbox db.outbox job.id = Option.none)
    (hatt : job.attempts < job.max_attempts)
    (hpast : record_is_in_past (load_record db.records job) now = false)
    (hphone : (load_client db.clients job
        (load_record db.records job)).bind (fun c => c.phone_e164) =
        some p)
    (hne : (p == "") = false)
    (hgate : (apply_rate_limit db.rate_limits p now).2 = Option.none)
    (hrender : render_message
        { db with rate_limits := (apply_rate_limit db.rate_limits p now).1 }
        job.company_id job.job_type (load_record db.records job)
        (load_client db.clients job (load_record db.records job)) =
        Except.ok (body, sender_id, lang))
    (hkey : provider_key env = "meta_cloud")
    (hallow : (pyStrip (env.allow_real_send_env.getD "0") == "1") =
        false) :
    let r := process_job_in_session db job_id env send_result now
    (∀ (env2 : WorkerEnv) (m : String), real_send_allowed env2 = true →
      safe_send env2 (Except.ok m) = (some m, Option.none))
    ∧ (∀ (env2 : WorkerEnv) (e : String), real_send_allowed env2 = true →
      safe_send env2 (Except.error e) = (Option.none, some e))
    ∧ (∀ (env2 : WorkerEnv) (sr : Except String String),
      real_send_allowed env2 = false →
      safe_send env2 sr = (Option.none, some "Real send disabled"))
    ∧ real_send_allowed env = false
    ∧ r.2.provider_called = false
    ∧ (∃ out : OutboxMessage, r.1.outbox = db.outbox ++ [out] ∧
      out.status = "failed" ∧ out.error = some "Real send disabled" ∧
      out.job_id = some job.id)
    ∧ (job.attempts + 1 < job.max_attempts →
      r.1.jobs = updateJob db.jobs
        { job with
            attempts := job.attempts + 1, status := "queued",
            locked_at := Option.none,
            last_error := some ("Send failed: " ++ "Real send disabled"),
            run_at := now + retry_delay_seconds (job.attempts + 1) })
    ∧ (job.attempts + 1 ≥ job.max_attempts →
      r.1.jobs = updateJob db.jobs
        { job with
            attempts := job.attempts + 1, status := "failed",
            locked_at := Option.none,
            last_error :=
              some ("Send failed: " ++ "Real send disabled") }) := by
  intro r
  have hnot : ¬ job.attempts ≥ job.max_attempts := by omega
  have hrsa : real_send_allowed env = false := by
    simp [real_send_allowed, hkey, hallow, bne_self_eq_false, META_PROVIDER_KEY]
  have hsend : safe_send env send_result =
      (Option.none, some "Real send disabled") := by
    simp [safe_send, hrsa]
  have htok : is_token_expired_error "Real send disabled" = false := by
    decide
  refine ⟨?_, ?_, ?_, hrsa, ?_, ?_, ?_, ?_⟩
  · intro env2 m h; simp [safe_send, h]
  · intro env2 e h; simp [safe_send, h]; rfl
  · intro env2 sr h; simp [safe_send, h]
  · simp only [r, process_job_in_session, hfind, hsucc]
    rw [if_neg hnot]
    simp only [hpast, hphone, hne, hgate, hrender, hsend, htok,
      Bool.false_eq_true, if_false, hrsa]
    split <;> rfl
  · simp only [r, process_job_in_session, hfind, hsucc]
    rw [if_neg hnot]
    simp only [hpast, hphone, hne, hgate, hrender, hsend, htok,
      Bool.false_eq_true, if_false]
    split
    · exact ⟨_, rfl, rfl, rfl, rfl⟩
    · exact ⟨_, rfl, rfl, rfl, rfl⟩
  · intro hlt
    have hnge : ¬ job.attempts + 1 ≥ job.max_attempts := by omega
    simp only [r, process_job_in_session, hfind, hsucc]
    rw [if_neg hnot]
    simp only [hpast, hphone, hne, hgate, hrender, hsend, htok,
      Bool.false_eq_true, if_false]
    rw [if_neg hnge]
  · intro hge
    simp only [r, process_job_in_session, hfind, hsucc]
    rw [if_neg hnot]
    simp only [hpast, hphone, hne, hgate, hrender, hsend, htok,
      Bool.false_eq_true, if_false]
    rw [if_pos hge]

/-- Witness for C10: with the meta_cloud provider and real send disabled,
the concrete job records a failed "Real send disabled" outbox row. -/
theorem c10_safe_send_disabled_gate_witness :
    let job7 : MessageJob :=
      { id := 1, company_id := 758285, client_id := some 1,
        job_type := "record_updated", run_at := 0,
        status := "processing", attempts := 0, max_attempts := 5,
        locked_at := some 0, dedupe_key := "k10" }
    let db : WorkerDb :=
      { jobs := [job7],
        clients := [{ id := 1, company_id := 758285,
                      altegio_client_id := 5,
                      phone_e164 := some "+491234",
                      display_name := some "Anna" }],
        templates := [{ id := 1, company_id := 758285,
                        code := "record_updated", language := "de",
                        body := "Hi \x7bclient_name\x7d" }],
        senders := [{ id := 7, company_id := 758285,
                      sender_code := "default",
                      phone_number_id := "pn" }] }
    let env : WorkerEnv :=
      { whatsapp_provider_env := some "meta_cloud",
        provider_module := "meta_cloud" }
    (db.jobs.find? (fun j => j.id == 1) = some job7)
    ∧ provider_key env = "meta_cloud"
    ∧ (pyStrip (env.allow_real_send_env.getD "0") == "1") = false
    ∧ (let r := process_job_in_session db 1 env (Except.ok "m") 50
       real_send_allowed env = false
       ∧ r.2.provider_called = false
       ∧ (∃ out : OutboxMessage, r.1.outbox = db.outbox ++ [out] ∧
          out.status = "failed" ∧ out.error = some "Real send disabled" ∧
          out.job_id = some job7.id)) := by
  intro job7 db env
  have h := c10_safe_send_disabled_gate db 1 env (Except.ok "m") 50 job7
    "+491234" "Hi Anna" "de" 7 rfl rfl (by decide) rfl rfl rfl rfl rfl
    rfl rfl
  exact ⟨rfl, rfl, rfl, h.2.2.2.1, h.2.2.2.2.1, h.2.2.2.2.2.1⟩

/-- The replacement-field names of a template, mirroring `formatChars`
(`none` when the template is malformed). -/
def templateFieldNames (cs : List Char) (field : Option (List Char)) :
    Option (List String) :=
  match cs, field with
  | [], Option.none => some []
  | [], some _ => Option.none
  | c :: rest, Option.none =>
    if c = Char.ofNat 123 then
      templateFieldNames rest (some [])
    else if c = Char.ofNat 125 then
      match rest with
      | c2 :: rest2 =>
        if c2 = Char.ofNat 125 then templateFieldNames rest2 Option.none
        else Option.none
      | [] => Option.none
    else templateFieldNames rest Option.none
  | c :: rest, some acc =>
    if c = Char.ofNat 123 && acc.isEmpty then
      templateFieldNames rest Option.none
    else if c = Char.ofNat 125 then
      (templateFieldNames rest Option.none).map
        (fun ns => String.mk acc.reverse :: ns)
    else templateFieldNames rest (some (c :: acc))

/-- The placeholder names `_render_message`'s context carries. -/
def supportedPlaceholders : List String :=
  ["client_name", "staff_name", "date", "time", "services", "total_cost",
   "short_link", "unsubscribe_link", "sender_id", "sender_code",
   "pre_appointment_notes"]

theorem formatChars_isOk_of_fields_aux (n : Nat) (cs : List Char)
    (field : Option (List Char)) (ctx : List (String × String))
    (names : List String) (hlen : cs.length ≤ n)
    (h : templateFieldNames cs field = some names)
    (hvals : ∀ n ∈ names,
      (ctx.find? (fun kv => kv.1 == n)).isSome = true) :
    (formatChars cs field ctx).isOk = true := by
  induction n generalizing cs field names with
  | zero =>
    have hnil : cs = [] := List.eq_nil_of_length_eq_zero (Nat.le_zero.mp hlen)
    subst hnil
    cases field with
    | none => simp [formatChars, Except.isOk, Except.toBool]
    | some acc =>
      have hnone : (Option.none : Option (List String)) = some names := h
      exact Option.noConfusion hnone
  | succ m ih =>
    cases cs with
    | nil =>
      cases field with
      | none => simp [formatChars, Except.isOk, Except.toBool]
      | some acc =>
        have hnone : (Option.none : Option (List String)) = some names := h
        exact Option.noConfusion hnone
    | cons c rest =>
      have hrest : rest.length ≤ m := by
        simp [List.length] at hlen; omega
      cases field with
      | none =>
        rw [templateFieldNames.eq_def] at h
        rw [formatChars.eq_def]
        dsimp only at h ⊢
        by_cases hob : c = Char.ofNat 123
        · rw [if_pos hob] at h ⊢
          exact ih _ _ _ hrest h hvals
        · rw [if_neg hob] at h ⊢
          by_cases hcb : c = Char.ofNat 125
          · rw [if_pos hcb] at h ⊢
            cases rest with
            | nil => simp at h
            | cons c2 rest2 =>
              dsimp only at h ⊢
              by_cases h2 : c2 = Char.ofNat 125
              · rw [if_pos h2] at h ⊢
                have hrest2 : rest2.length ≤ m := by
                  simp [List.length] at hlen; omega
                have hok := ih _ _ _ hrest2 h hvals
                cases hf : formatChars rest2 Option.none ctx with
                | error e => rw [hf] at hok; simp [Except.isOk, Except.toBool] at hok
                | ok s => simp [hf, Except.isOk, Except.toBool, Except.map]
              · rw [if_neg h2] at h
                simp at h
          · rw [if_neg hcb] at h ⊢
            have hok := ih _ _ _ hrest h hvals
            cases hf : formatChars rest Option.none ctx with
            | error e => rw [hf] at hok; simp [Except.isOk, Except.toBool] at hok
            | ok s => simp [hf, Except.isOk, Except.toBool, Except.map]
      | some acc =>
        rw [templateFieldNames.eq_def] at h
        rw [formatChars.eq_def]
        dsimp only at h ⊢
        by_cases hob : (decide (c = Char.ofNat 123) && acc.isEmpty) = true
        · rw [if_pos hob] at h ⊢
          have hok := ih _ _ _ hrest h hvals
          cases hf : formatChars rest Option.none ctx with
          | error e => rw [hf] at hok; simp [Except.isOk, Except.toBool] at hok
          | ok s => simp [hf, Except.isOk, Except.toBool, Except.map]
        · rw [if_neg hob] at h ⊢
          by_cases hcb : c = Char.ofNat 125
          · rw [if_pos hcb] at h ⊢
            cases hn : templateFieldNames rest Option.none with
            | none => rw [hn] at h; simp at h
            | some ns =>
              rw [hn] at h
              dsimp only [Option.map] at h
              cases h
              have hhead : (ctx.find? (fun kv =>
                  kv.1 == String.mk acc.reverse)).isSome = true :=
                hvals _ (by simp)
              obtain ⟨kv, hkv⟩ := Option.isSome_iff_exists.mp hhead
              rw [hkv]
              have hok := ih _ _ _ hrest hn (fun n hna => hvals n (by simp [hna]))
              cases hf : formatChars rest Option.none ctx with
              | error e => rw [hf] at hok; simp [Except.isOk, Except.toBool] at hok
              | ok s => simp [hf, Except.isOk, Except.toBool, Except.map]
          · rw [if_neg hcb] at h ⊢
            exact ih _ _ _ hrest h hvals

/-- `find?` by key succeeds exactly when the key column contains the name. -/
theorem find_key_isSome_eq_contains (ctx : List (String × String))
    (n : String) :
    (ctx.find? (fun kv => kv.1 == n)).isSome =
      (ctx.map Prod.fst).contains n := by
  induction ctx with
  | nil => rfl
  | cons kv rest ih =>
    by_cases h : kv.1 = n
    · subst h
      simp [List.find?, List.contains_cons]
    · have h1 : (kv.1 == n) = false := by simp [h]
      have h2 : (n == kv.1) = false := by
        simp
        exact fun e => h e.symm
      simp [List.find?, List.contains_cons, h1, h2, ih]

/-- Formatting fails when a replacement field does not resolve in `ctx`. -/
theorem formatChars_err_of_missing_aux (n : Nat) (cs : List Char)
    (field : Option (List Char)) (ctx : List (String × String))
    (names : List String) (hlen : cs.length ≤ n)
    (h : templateFieldNames cs field = some names)
    (hmiss : ∃ m, m ∈ names ∧
      ctx.find? (fun kv => kv.1 == m) = Option.none) :
    (formatChars cs field ctx).isOk = false := by
  induction n generalizing cs field names with
  | zero =>
    have hnil : cs = [] := List.eq_nil_of_length_eq_zero (Nat.le_zero.mp hlen)
    subst hnil
    cases field with
    | none =>
      obtain ⟨m, hm, _⟩ := hmiss
      have hne : names = [] := by
        have h2 : (some ([] : List String) : Option (List String)) =
            some names := h
        injection h2 with h3
        exact h3.symm
      subst hne
      exact absurd hm (List.not_mem_nil m)
    | some acc =>
      exact Option.noConfusion
        (show (Option.none : Option (List String)) = some names from h)
  | succ k ih =>
    cases cs with
    | nil =>
      cases field with
      | none =>
        obtain ⟨m, hm, _⟩ := hmiss
        have hne : names = [] := by
          have h2 : (some ([] : List String) : Option (List String)) =
              some names := h
          injection h2 with h3
          exact h3.symm
        subst hne
        exact absurd hm (List.not_mem_nil m)
      | some acc =>
        exact Option.noConfusion
          (show (Option.none : Option (List String)) = some names from h)
    | cons c rest =>
      have hrest : rest.length ≤ k := by
        simp [List.length] at hlen; omega
      cases field with
      | none =>
        rw [templateFieldNames.eq_def] at h
        rw [formatChars.eq_def]
        dsimp only at h ⊢
        by_cases hob : c = Char.ofNat 123
        · rw [if_pos hob] at h ⊢
          exact ih _ _ _ hrest h hmiss
        · rw [if_neg hob] at h ⊢
          by_cases hcb : c = Char.ofNat 125
          · rw [if_pos hcb] at h ⊢
            cases rest with
            | nil => simp at h
            | cons c2 rest2 =>
              dsimp only at h ⊢
              by_cases h2 : c2 = Char.ofNat 125
              · rw [if_pos h2] at h ⊢
                have hrest2 : rest2.length ≤ k := by
                  simp [List.length] at hlen; omega
                have hbad := ih _ _ _ hrest2 h hmiss
                cases hf : formatChars rest2 Option.none ctx with
                | error e => simp [Except.isOk, Except.toBool, Except.map]
                | ok s =>
                  rw [hf] at hbad
                  simp [Except.isOk, Except.toBool] at hbad
              · rw [if_neg h2] at h
                simp at h
          · rw [if_neg hcb] at h ⊢
            have hbad := ih _ _ _ hrest h hmiss
            cases hf : formatChars rest Option.none ctx with
            | error e => simp [Except.isOk, Except.toBool, Except.map]
            | ok s =>
              rw [hf] at hbad
              simp [Except.isOk, Except.toBool] at hbad
      | some acc =>
        rw [templateFieldNames.eq_def] at h
        rw [formatChars.eq_def]
        dsimp only at h ⊢
        by_cases hob : (decide (c = Char.ofNat 123) && acc.isEmpty) = true
        · rw [if_pos hob] at h ⊢
          have hbad := ih _ _ _ hrest h hmiss
          cases hf : formatChars rest Option.none ctx with
          | error e => simp [Except.isOk, Except.toBool, Except.map]
          | ok s =>
            rw [hf] at hbad
            simp [Except.isOk, Except.toBool] at hbad
        · rw [if_neg hob] at h ⊢
          by_cases hcb : c = Char.ofNat 125
          · rw [if_pos hcb] at h ⊢
            cases hn2 : templateFieldNames rest Option.none with
            | none => rw [hn2] at h; simp at h
            | some ns =>
              rw [hn2] at h
              dsimp only [Option.map] at h
              cases h
              obtain ⟨m, hm, hfindm⟩ := hmiss
              by_cases hmh : m = String.mk acc.reverse
              · subst hmh
                rw [hfindm]
                simp [Except.isOk, Except.toBool]
              · have hmns : m ∈ ns := by
                  rcases List.mem_cons.mp hm with he | hmns
                  · exact absurd he hmh
                  · exact hmns
                cases hk : ctx.find?
                    (fun kv => kv.1 == String.mk acc.reverse) with
                | none =>
                  simp [Except.isOk, Except.toBool]
                | some kv =>
                  have hbad := ih _ _ _ hrest hn2 ⟨m, hmns, hfindm⟩
                  cases hf : formatChars rest Option.none ctx with
                  | error e => simp [Except.isOk, Except.toBool, Except.map]
                  | ok s =>
                    rw [hf] at hbad
                    simp [Except.isOk, Except.toBool] at hbad
          · rw [if_neg hcb] at h ⊢
            exact ih _ _ _ hrest h hmiss

/-- C9 (corrected): the rendering context carries exactly the placeholders
`client_name, staff_name, date, time, services, total_cost, short_link,
unsubscribe_link, sender_id, sender_code, pre_appointment_notes` (and not
`primary_service`): once the template and an active sender resolve, a
template all of whose replacement fields are drawn from this set renders
successfully, while a template containing any replacement field outside
this set is a rendering error. -/
theorem c9_render_placeholders (db : WorkerDb) (company_id : Int)
    (template_code : String) (record : Option Record)
    (client : Option Client) (tmpl : MessageTemplate) (used_lang : String)
    (sender_id : Nat) (names : List String)
    (hload : load_template db.templates company_id template_code
      (pick_language company_id client) = (some tmpl, used_lang))
    (hsender : pick_sender_id db.senders company_id
      (match record with
       | Option.none => "default"
       | some r => pick_sender_code_for_record db.record_services
           db.sender_rules company_id r.id) = some sender_id)
    (hnames : templateFieldNames tmpl.body.data Option.none = some names) :
    (names.all (fun n => supportedPlaceholders.contains n) = true →
      (render_message db company_id template_code record client).isOk =
        true) ∧
    ((∃ n ∈ names, supportedPlaceholders.contains n = false) →
      (render_message db company_id template_code record client).isOk =
        false) := by
  constructor
  · intro hall
    have hall2 := List.all_eq_true.mp hall
    simp only [render_message]
    rw [hload]
    dsimp only
    rw [hsender]
    dsimp only
    split
    · rename_i e heq
      have hok : (Except.error e : Except String String).isOk = true := by
        rw [← heq]
        simp only [pyFormat]
        refine formatChars_isOk_of_fields_aux tmpl.body.data.length
          tmpl.body.data Option.none _ names (Nat.le_refl _) hnames ?_
        intro m hm
        rw [find_key_isSome_eq_contains]
        show supportedPlaceholders.contains m = true
        exact hall2 m hm
      simp [Except.isOk, Except.toBool] at hok
    · simp [Except.isOk, Except.toBool]
  · intro hmiss
    simp only [render_message]
    rw [hload]
    dsimp only
    rw [hsender]
    dsimp only
    split
    · simp [Except.isOk, Except.toBool]
    · rename_i body heq
      have hcontra : (Except.ok body : Except String String).isOk =
          false := by
        rw [← heq]
        simp only [pyFormat]
        refine formatChars_err_of_missing_aux tmpl.body.data.length
          tmpl.body.data Option.none _ names (Nat.le_refl _) hnames ?_
        obtain ⟨nm, hnm, hnsupp⟩ := hmiss
        refine ⟨nm, hnm, ?_⟩
        rw [← Option.not_isSome_iff_eq_none]
        rw [find_key_isSome_eq_contains]
        show ¬supportedPlaceholders.contains nm = true
        intro hc
        rw [hnsupp] at hc
        exact Bool.false_ne_true hc
      simp [Except.isOk, Except.toBool] at hcontra

/-- A company database whose active template body is exactly
`\x7bprimary_service\x7d`, with an active default sender. -/
def c9db : WorkerDb :=
  { templates := [{ id := 1,
                    company_id := 758285,
                    code := "record_created",
                    language := "de",
                    body := String.singleton (Char.ofNat 123) ++
                      "primary_service" ++ String.singleton (Char.ofNat 125),
                    is_active := true }],
    senders := [{ id := 7,
                  company_id := 758285,
                  sender_code := "default",
                  phone_number_id := "pn-1",
                  is_active := true }] }

/-- C9 counterexample: `primary_service` is listed by the spec as a
substitutable placeholder, yet rendering a template consisting of exactly
that placeholder (with the template and an active sender resolving) is a
rendering error, because `_render_message` puts no `primary_service` key
into the format context. -/
theorem c9_counterexample :
    render_message c9db 758285 "record_created" Option.none Option.none =
      Except.error (squote ++ "primary_service" ++ squote) := by rfl

/-- A company database with an active template using only the supported
`client_name` placeholder, and an active default sender. -/
def c9okdb : WorkerDb :=
  { templates := [{ id := 1,
                    company_id := 758285,
                    code := "record_created",
                    language := "de",
                    body := "Hallo " ++ String.singleton (Char.ofNat 123) ++
                      "client_name" ++ String.singleton (Char.ofNat 125),
                    is_active := true }],
    senders := [{ id := 7,
                  company_id := 758285,
                  sender_code := "default",
                  phone_number_id := "pn-1",
                  is_active := true }] }

theorem c9_render_placeholders_witness :
    (render_message c9okdb 758285 "record_created" Option.none
      Option.none).isOk = true := by
  have h := c9_render_placeholders c9okdb 758285 "record_created"
    Option.none Option.none
    { id := 1,
      company_id := 758285,
      code := "record_created",
      language := "de",
      body := "Hallo " ++ String.singleton (Char.ofNat 123) ++
        "client_name" ++ String.singleton (Char.ofNat 125),
      is_active := true }
    "de" 7 ["client_name"] (by decide) (by decide) (by decide)
  exact h.1 (by decide)
